import Mathlib

/-!
Verification development for the AuraCX customer-service backend
(`backend/app` of the repository): a shallow embedding, in Lean 4, of the
orchestration code (synthesizer, confidence router, tooling dispatcher,
RAG pipeline, PII masker, knowledge agents), together with theorems that
settle the frozen specification claims C1..C10.

Modelling conventions:
* Python strings are modelled as `String`/`List Char`; all character-level
  operations are re-implemented with structural recursion so that concrete
  runs evaluate inside the kernel.
* Python floats are modelled as `ℚ` where the code only does arithmetic and
  comparisons on literals (confidences, scores, prices), and as `ℝ` where
  the code takes square roots (store distances).
* External collaborators (the OpenAI completion endpoint, `json.loads`,
  sklearn's TF-IDF scoring, Python's float formatting) are oracle fields of
  an `Env` structure; a Python exception raised by a collaborator is the
  `Except.error` case, and `try/except` blocks are `match`es on `Except`.
* Functions with observable staging (the RAG pipeline, the tooling
  dispatcher) additionally return a list of events recording which stage /
  agent was invoked with which payload; this instrumentation is consumed
  only by theorems, never by the embedded code itself.
-/

/-! ## Character and string utilities (models of Python `str` operations) -/

/-- ASCII lower-casing of one character, the effect of Python `str.lower`
on the ASCII texts handled here. -/
def lowerChar (c : Char) : Char :=
  if 65 ≤ c.toNat ∧ c.toNat ≤ 90 then Char.ofNat (c.toNat + 32) else c

/-- Python `str.lower` (ASCII fragment). -/
def pyLower (cs : List Char) : List Char := cs.map lowerChar

/-- Word character for Python `re`'s `\b` (`[A-Za-z0-9_]`, ASCII fragment). -/
def isWordC (c : Char) : Bool := c.isAlpha || c.isDigit || c = '_'

/-- ASCII whitespace, Python `\s` / `str.split()` separators. -/
def isSpaceC (c : Char) : Bool := c.isWhitespace

/-- ASCII digit test (`str.isdigit`, `\d`, ASCII fragment). -/
def isDigitC (c : Char) : Bool := c.isDigit

/-- `sub` occurs as a contiguous substring of the second argument
(Python `in` on strings). -/
def hasSub (sub : List Char) : List Char → Bool
  | [] => sub.isEmpty
  | c :: t => sub.isPrefixOf (c :: t) || hasSub sub t

/-- Python `text.replace(s, m)` with nonempty `s`: left-to-right,
non-overlapping replacement of every occurrence.  The first argument is
fuel bounding the number of scan steps; it is instantiated with the text
length, which suffices because every step consumes at least one character. -/
def replaceFuel (s m : List Char) : ℕ → List Char → List Char
  | _, [] => []
  | 0, t => t
  | f + 1, c :: t =>
    if s.isPrefixOf (c :: t) then m ++ replaceFuel s m f (List.drop (s.length - 1) t)
    else c :: replaceFuel s m f t

/-- Python `text.replace(s, m)`.  (For `s = ""` Python would interleave `m`
everywhere; that case is unreachable here because all replaced strings are
nonempty regex matches, so the text is returned unchanged.) -/
def pyReplace (t s m : List Char) : List Char :=
  if s = [] then t else replaceFuel s m t.length t

/-- Python `str.split()` — split on runs of whitespace, dropping empties. -/
def pySplitWs (cs : List Char) : List (List Char) :=
  (cs.foldr
    (fun c acc =>
      if isSpaceC c then [] :: acc
      else match acc with
        | [] => [[c]]
        | w :: ws => (c :: w) :: ws)
    []).filter (· ≠ [])

/-- Value of a list of ASCII digit characters read in base 10. -/
def digitsVal (ds : List Char) : ℕ := ds.foldl (fun n c => n * 10 + (c.toNat - 48)) 0

/-- Python `float(s)` on the decimal fragment actually produced by this
program: optional surrounding whitespace, optional sign, digits with at
most one decimal point and at least one digit.  Exponent, `inf`/`nan` and
underscore forms are not produced by any call site and are not modelled;
`none` is Python's `ValueError`. -/
def pyFloatStr (cs : List Char) : Option ℚ :=
  let cs := ((cs.dropWhile isSpaceC).reverse.dropWhile isSpaceC).reverse
  let sgn : ℚ × List Char :=
    match cs with
    | '+' :: t => (1, t)
    | '-' :: t => (-1, t)
    | t => (1, t)
  let body := sgn.2
  if body.all (fun c => isDigitC c || c = '.') ∧
     (body.filter isDigitC) ≠ [] ∧ body.count '.' ≤ 1 then
    let ip := body.takeWhile (· ≠ '.')
    let fp := (body.dropWhile (· ≠ '.')).drop 1
    some (sgn.1 * ((digitsVal ip : ℚ) + (digitsVal fp : ℚ) / (10 : ℚ) ^ fp.length))
  else none

/-! ## JSON values (shapes produced by `json.loads`) -/

/-- A parsed JSON value, as handed to the orchestrator by
`llm_client.extract_json` (`json.loads`). -/
inductive JVal where
  | jstr (s : String)
  | jnum (q : ℚ)
  | jbool (b : Bool)
  | jnull
  | jobj (m : List (String × JVal))

/-- Python truthiness of a JSON value (`if order_id:` and friends). -/
def jvalTruthy : JVal → Bool
  | .jstr s => !s.isEmpty
  | .jnum q => decide (q ≠ 0)
  | .jbool b => b
  | .jnull => false
  | .jobj m => !m.isEmpty

/-- Python `float(v)` on a JSON value; `Except.error` is the raised
`TypeError`/`ValueError`. -/
def pyFloatJ : JVal → Except Unit ℚ
  | .jnum q => .ok q
  | .jbool b => .ok (if b then 1 else 0)
  | .jstr s =>
    match pyFloatStr s.toList with
    | some q => .ok q
    | none => .error ()
  | .jnull => .error ()
  | .jobj _ => .error ()

/-- Python `min` on two rationals (`min(a, b)`). -/
def pymin (a b : ℚ) : ℚ := if a ≤ b then a else b

/-- Python `max` on two rationals (`max(a, b)`). -/
def pymax (a b : ℚ) : ℚ := if b ≤ a then a else b

/-! ## PII masker (`app/utils/pii_masker.py`)

The four regular expressions of `PIIMasker` are fixed, so each one is
hand-compiled to a dedicated matcher with Python `re` semantics: leftmost
scanning, greedy quantifiers with backtracking, `\b` word boundaries, and
non-overlapping `findall`. -/

/-- `\b` between an optional previous character and the character at the
current position (out-of-text counts as non-word). -/
def wordB (prev : Option Char) (cur : Char) : Bool :=
  (match prev with | some p => isWordC p | none => false) != isWordC cur

/-- `\b` after a match: between the last consumed character and the
optional next character. -/
def endBoundary (lastC : Char) (next : Option Char) : Bool :=
  isWordC lastC != (match next with | some c => isWordC c | none => false)

/-- Email local-part class `[A-Za-z0-9._%+-]`. -/
def isNameChar (c : Char) : Bool :=
  c.isAlpha || c.isDigit || c = '.' || c = '_' || c = '%' || c = '+' || c = '-'

/-- Email domain class `[A-Za-z0-9.-]`. -/
def isDomChar (c : Char) : Bool := c.isAlpha || c.isDigit || c = '.' || c = '-'

/-- Email TLD class `[A-Z|a-z]` — note the literal `|` inside the class in
the source pattern. -/
def isTldChar (c : Char) : Bool := c.isAlpha || c = '|'

/-- One token of a hand-compiled regex: a required or an optional
single-character class, or a trailing `\b` after a word character. -/
inductive Tok where
  | req (p : Char → Bool)
  | opt (p : Char → Bool)
  | endB

/-- Backtracking matcher for a token sequence at the head of the input;
returns the number of consumed characters of the preferred (greedy,
option-taken-first) successful alternative, as Python `re` would.
`Tok.endB` succeeds iff the next character is absent or non-word (all
patterns using it end in `\d`, a word character). -/
def matchToks : List Tok → List Char → Option ℕ
  | [], _ => some 0
  | Tok.req _ :: _, [] => none
  | Tok.req p :: ts, c :: cs => if p c then (matchToks ts cs).map (· + 1) else none
  | Tok.opt _ :: ts, [] => matchToks ts []
  | Tok.opt p :: ts, c :: cs =>
    if p c then
      match matchToks ts cs with
      | some n => some (n + 1)
      | none => matchToks ts (c :: cs)
    else matchToks ts (c :: cs)
  | Tok.endB :: ts, [] => matchToks ts []
  | Tok.endB :: ts, c :: cs => if isWordC c then none else matchToks ts (c :: cs)

/-- The email pattern's domain tail `[A-Za-z0-9.-]+\.[A-Z|a-z]{2,}\b`,
matched against `rest2` (the characters after `@`).  `js` enumerates the
candidate positions of the literal dot in descending order (greedy `+`
backtracks from the longest prefix); for each, TLD lengths are tried from
the maximal run down to 2 (greedy `{2,}` backtracks), requiring the final
`\b`.  Returns the number of consumed characters after the `@`. -/
def emailDomainLen (rest2 : List Char) : Option ℕ :=
  let dom := rest2.takeWhile isDomChar
  let js := ((List.range dom.length).filter
      (fun j => dom.get? j = some '.' ∧ 1 ≤ j)).reverse
  js.findSome? (fun j =>
    let tldRun := (rest2.drop (j + 1)).takeWhile isTldChar
    ((List.range' 2 (tldRun.length - 1)).reverse).findSome? (fun k =>
      let stop := j + 1 + k
      match (rest2.take stop).getLast? with
      | none => none
      | some lc =>
        if endBoundary lc ((rest2.drop stop).head?) then some stop else none))

/-- Match of `PIIMasker.EMAIL_PATTERN`
(`\b[A-Za-z0-9._%+-]+@[A-Za-z0-9.-]+\.[A-Z|a-z]{2,}\b`) anchored at the
current position, given the previous character; returns the matched
characters and the remaining input. -/
def matchEmailAt (prev : Option Char) (cs : List Char) : Option (List Char × List Char) :=
  match cs with
  | [] => none
  | c :: _ =>
    if wordB prev c then
      let name := cs.takeWhile isNameChar
      if name = [] then none
      else
        match cs.drop name.length with
        | '@' :: rest2 =>
          match emailDomainLen rest2 with
          | none => none
          | some n =>
            some (name ++ '@' :: rest2.take n, rest2.drop n)
        | _ => none
    else none

/-- Separator class `[-.\s]` of the phone pattern. -/
def isPhoneSep (c : Char) : Bool := c = '-' || c = '.' || isSpaceC c

/-- Separator class `[-\s]` of the credit-card pattern. -/
def isCcSep (c : Char) : Bool := c = '-' || isSpaceC c

/-- Tokens for `\(?\d{3}\)?[-.\s]?\d{3}[-.\s]?\d{4}\b`, the part of the
phone pattern after the optional `+1` prefix. -/
def phoneCore : List Tok :=
  [Tok.opt (· = '(')] ++ List.replicate 3 (Tok.req isDigitC) ++
  [Tok.opt (· = ')'), Tok.opt isPhoneSep] ++ List.replicate 3 (Tok.req isDigitC) ++
  [Tok.opt isPhoneSep] ++ List.replicate 4 (Tok.req isDigitC) ++ [Tok.endB]

/-- Match of `PIIMasker.PHONE_PATTERN`
(`\b(?:\+?1[-.\s]?)?\(?(?:\d{3})\)?[-.\s]?(?:\d{3})[-.\s]?(?:\d{4})\b`)
anchored at the current position: the optional prefix group is tried
first (with its internal backtracking), then the bare core. -/
def matchPhoneAt (prev : Option Char) (cs : List Char) : Option (List Char × List Char) :=
  match cs with
  | [] => none
  | c :: _ =>
    if wordB prev c then
      let n? :=
        match matchToks ([Tok.opt (· = '+'), Tok.req (· = '1'), Tok.opt isPhoneSep] ++ phoneCore) cs with
        | some n => some n
        | none => matchToks phoneCore cs
      match n? with
      | none => none
      | some n => some (cs.take n, cs.drop n)
    else none

/-- Match of `PIIMasker.SSN_PATTERN` (`\b(?:\d{3}[-]?\d{2}[-]?\d{4})\b`). -/
def matchSsnAt (prev : Option Char) (cs : List Char) : Option (List Char × List Char) :=
  match cs with
  | [] => none
  | c :: _ =>
    if wordB prev c then
      match matchToks
          (List.replicate 3 (Tok.req isDigitC) ++ [Tok.opt (· = '-')] ++
           List.replicate 2 (Tok.req isDigitC) ++ [Tok.opt (· = '-')] ++
           List.replicate 4 (Tok.req isDigitC) ++ [Tok.endB]) cs with
      | none => none
      | some n => some (cs.take n, cs.drop n)
    else none

/-- Match of `PIIMasker.CREDIT_CARD_PATTERN` (`\b(?:\d{4}[-\s]?){3}\d{4}\b`). -/
def matchCcAt (prev : Option Char) (cs : List Char) : Option (List Char × List Char) :=
  match cs with
  | [] => none
  | c :: _ =>
    if wordB prev c then
      match matchToks
          (List.replicate 4 (Tok.req isDigitC) ++ [Tok.opt isCcSep] ++
           List.replicate 4 (Tok.req isDigitC) ++ [Tok.opt isCcSep] ++
           List.replicate 4 (Tok.req isDigitC) ++ [Tok.opt isCcSep] ++
           List.replicate 4 (Tok.req isDigitC) ++ [Tok.endB]) cs with
      | none => none
      | some n => some (cs.take n, cs.drop n)
    else none

/-- Scanning loop of `re.findall`: try a match at each position, emit it
and resume after its end (non-overlapping), else advance one character.
Fuel bounds the number of steps (every step consumes at least one
character, so the text length suffices). -/
def scanGo (matchAt : Option Char → List Char → Option (List Char × List Char)) :
    ℕ → Option Char → List Char → List (List Char)
  | 0, _, _ => []
  | _, _, [] => []
  | f + 1, prev, c :: t =>
    match matchAt prev (c :: t) with
    | some (m, rest) => m :: scanGo matchAt f m.getLast? rest
    | none => scanGo matchAt f (some c) t

/-- `re.findall(pattern, text)` for one of the four fixed patterns. -/
def reFindall (matchAt : Option Char → List Char → Option (List Char × List Char))
    (cs : List Char) : List (List Char) :=
  scanGo matchAt cs.length none cs

/-- `PIIMasker.mask_email`: keep first and last character of the local
part (if it is longer than 2), star the middle, keep the domain. -/
def mask_email (email : List Char) : List Char :=
  if email.contains '@' then
    let name := email.takeWhile (· ≠ '@')
    let domain := (email.dropWhile (· ≠ '@')).drop 1
    let masked_name :=
      if 2 < name.length then
        name.take 1 ++ List.replicate (name.length - 2) '*' ++ name.drop (name.length - 1)
      else ['*']
    masked_name ++ '@' :: domain
  else "[EMAIL]".toList

/-- `PIIMasker.mask_phone`: keep the last four digits. -/
def mask_phone (phone : List Char) : List Char :=
  let digits_only := phone.filter isDigitC
  if 4 ≤ digits_only.length then
    "***-***-".toList ++ digits_only.drop (digits_only.length - 4)
  else "[PHONE]".toList

/-- `PIIMasker.mask_ssn`: `"***-**-" + ssn[-4:]`. -/
def mask_ssn (ssn : List Char) : List Char :=
  "***-**-".toList ++ ssn.drop (ssn.length - 4)

/-- `PIIMasker.mask_credit_card`: keep the last four digits. -/
def mask_credit_card (cc : List Char) : List Char :=
  let digits_only := cc.filter isDigitC
  if 4 ≤ digits_only.length then
    "**** **** **** ".toList ++ digits_only.drop (digits_only.length - 4)
  else "[CARD]".toList

/-- One masked item: the original matched substring and its mask. -/
structure MaskRecord where
  original : List Char
  masked : List Char
deriving DecidableEq

/-- The `pii_found` dictionary of `mask_text`. -/
structure PiiFound where
  emails : List MaskRecord
  phones : List MaskRecord
  ssns : List MaskRecord
  credit_cards : List MaskRecord
deriving DecidableEq

/-- `PIIMasker.mask_text` on character lists: find each category on the
original text, then replace every occurrence of each match (sequentially,
in the category order of the source) in the evolving masked text. -/
def mask_chars (text : List Char) : List Char × PiiFound :=
  let emails := reFindall matchEmailAt text
  let masked1 := emails.foldl (fun acc e => pyReplace acc e (mask_email e)) text
  let phones := reFindall matchPhoneAt text
  let masked2 := phones.foldl (fun acc p => pyReplace acc p (mask_phone p)) masked1
  let ssns := reFindall matchSsnAt text
  let masked3 := ssns.foldl (fun acc s => pyReplace acc s (mask_ssn s)) masked2
  let ccs := reFindall matchCcAt text
  let masked4 := ccs.foldl (fun acc c => pyReplace acc c (mask_credit_card c)) masked3
  (masked4,
   ⟨emails.map (fun e => ⟨e, mask_email e⟩),
    phones.map (fun p => ⟨p, mask_phone p⟩),
    ssns.map (fun s => ⟨s, mask_ssn s⟩),
    ccs.map (fun c => ⟨c, mask_credit_card c⟩)⟩)

/-- `PIIMasker.mask_text` at string level. -/
def mask_text (text : String) : String × PiiFound :=
  let r := mask_chars text.toList
  (String.mk r.1, r.2)

/-! ## Data contracts (`app/models/schemas.py`, `app/config.py`) -/

/-- `Settings.CONFIDENCE_THRESHOLD` (`app/config.py`, default 0.7). -/
def CONFIDENCE_THRESHOLD : ℚ := 0.7

/-- `LocationData`. -/
structure LocationData where
  latitude : ℝ
  longitude : ℝ
  address : Option String

/-- An arbitrary JSON value (used for the loosely typed
`Dict[str, Any]` payloads); arrays complete the earlier constructors. -/
inductive JArr where
  | mk (l : List (String × JVal))

/-- `CustomerProfile` (the `past_visits`/`preferences` payloads are loosely
typed dictionaries; they are never read by the orchestration code). -/
structure CustomerProfile where
  customer_id : String
  location : LocationData
  past_visits : List (List (String × JVal))
  preferences : List (String × JVal)
  weather_context : Option String

/-- `ChatRequest`. -/
structure ChatRequest where
  message : String
  customer_id : String
  location : LocationData
  customer_profile : Option CustomerProfile
  context : Option (List (String × JVal))

/-- `IntentResult`. -/
structure IntentResult where
  intent : String
  confidence : ℚ
  entities : List (String × JVal)
  emotion : Option String

/-! ## Offers agent (`app/agents/offers_agent.py`) -/

/-- One entry of `OffersAgent.OFFERS` (the dictionary key `type` is the
field `otype` here). -/
structure Offer where
  id : String
  code : String
  description : String
  discount : ℚ
  otype : String
  min_purchase : ℚ
  valid_until : String
  categories : List String
deriving DecidableEq

/-- The `LOYALTY_REWARD` entry of `OffersAgent.OFFERS` (named so that
theorems can refer to it). -/
def loyaltyOffer : Offer :=
  ⟨"LOYALTY_REWARD", "LOYALTY15", "15% loyalty reward for frequent visitors", 15, "percentage", 10.0,
   "2025-12-31", ["all"]⟩

/-- `OffersAgent.OFFERS`. -/
def OFFERS : List Offer :=
  [⟨"WELCOME10", "WELCOME10", "10% off first order", 10, "percentage", 5.0,
    "2025-12-31", ["all"]⟩,
   ⟨"HOT_COCOA_COUPON", "HOT10", "Hot Cocoa 10% coupon", 10, "percentage", 0.0,
    "2025-12-31", ["hot_drinks"]⟩,
   ⟨"SUMMER_COLD", "COLD15", "15% off cold beverages", 15, "percentage", 3.0,
    "2025-12-31", ["cold_drinks"]⟩,
   ⟨"PASTRY_DEAL", "PASTRY20", "$2 off any pastry", 2.0, "fixed", 0.0,
    "2025-12-31", ["pastries"]⟩,
   loyaltyOffer]

/-- One step of the loyalty pass of `get_personalized_offers`:
`if "LOYALTY" in offer["id"] and offer not in recommended_offers:
recommended_offers.append(offer)`. -/
def loyalty_step (acc : List Offer) (o : Offer) : List Offer :=
  if hasSub "LOYALTY".toList o.id.toList ∧ o ∉ acc then acc ++ [o] else acc

/-- The `recommended_offers` list of `get_personalized_offers` just before
the popular-offers fallback: the weather-based pass followed by the
loyalty pass (a fold because the source checks membership in the evolving
list). -/
def recommended_before_fallback (weather_context : Option String) : List Offer :=
  let weatherRec : List Offer :=
    match weather_context with
    | some w =>
      if !w.isEmpty then
        let wl := String.mk (pyLower w.toList)
        if hasSub "cold".toList wl.toList || hasSub "winter".toList wl.toList then
          OFFERS.filter (fun o => o.categories.contains "hot_drinks" || o.categories.contains "all")
        else if hasSub "hot".toList wl.toList || hasSub "summer".toList wl.toList then
          OFFERS.filter (fun o => o.categories.contains "cold_drinks" || o.categories.contains "all")
        else []
      else []
    | none => []
  OFFERS.foldl loyalty_step weatherRec

/-- `OffersAgent.get_personalized_offers`.  `customer_id` and
`recent_purchases` are accepted and ignored exactly as in the source. -/
def get_personalized_offers (customer_id : String) (weather_context : Option String)
    (recent_purchases : Option (List String)) : List Offer :=
  let r := recommended_before_fallback weather_context
  if r.isEmpty then OFFERS.take 3 else r

/-! ## Inventory agent (`app/agents/inventory_agent.py`) -/

/-- One inventory item (`{"quantity": …, "price": …}`). -/
structure InvItem where
  quantity : ℕ
  price : ℚ
deriving DecidableEq

/-- `InventoryAgent.INVENTORY`. -/
def INVENTORY : List (String × List (String × InvItem)) :=
  [("starbucks_downtown",
    [("hot_cocoa", ⟨50, 4.95⟩), ("coffee", ⟨100, 2.95⟩), ("latte", ⟨75, 5.45⟩),
     ("cappuccino", ⟨60, 5.45⟩), ("iced_coffee", ⟨40, 3.45⟩), ("pastry", ⟨120, 5.99⟩)]),
   ("starbucks_phoenix",
    [("hot_cocoa", ⟨80, 4.95⟩), ("coffee", ⟨150, 2.95⟩), ("latte", ⟨120, 5.45⟩),
     ("cappuccino", ⟨100, 5.45⟩), ("iced_coffee", ⟨50, 3.45⟩), ("pastry", ⟨200, 5.99⟩)]),
   ("starbucks_la",
    [("hot_cocoa", ⟨60, 4.95⟩), ("coffee", ⟨120, 2.95⟩), ("latte", ⟨90, 5.45⟩),
     ("cappuccino", ⟨80, 5.45⟩), ("iced_coffee", ⟨30, 3.45⟩), ("pastry", ⟨150, 5.99⟩)])]

/-- Result dictionary of `InventoryAgent.check_availability` (three shapes
in the source, tagged here). -/
inductive AvailResult where
  | storeNotFound
  | productNotFound (product : String) (reason : String)
  | stock (product : String) (available : Bool) (quantity : ℕ) (price : ℚ) (message : String)
deriving DecidableEq

/-- `InventoryAgent.check_availability`.  The product comes from the
loosely typed entity map, so it is a `JVal`; `product.lower()` raises
(`Except.error`) on any non-string value, exactly as Python's
`AttributeError` would. -/
def check_availability (store_id : String) (product : JVal) : Except Unit AvailResult :=
  match INVENTORY.lookup store_id with
  | none => .ok .storeNotFound
  | some inv =>
    if inv.isEmpty then .ok .storeNotFound
    else
      match product with
      | .jstr s =>
        let product_lower := String.mk ((pyLower s.toList).map (fun c => if c = ' ' then '_' else c))
        match inv.lookup product_lower with
        | none => .ok (.productNotFound s "Product not found in this store")
        | some item =>
          let available := decide (0 < item.quantity)
          .ok (.stock s available (if available then item.quantity else 0) item.price
            (if available then "In stock at " ++ store_id else "Out of stock"))
      | _ => .error ()

/-! ## Order agent (`app/agents/order_agent.py`) -/

/-- One entry of `OrderAgent.ORDERS`.  The `created_at` values are
`datetime.now()`-derived strings fixed at import time; they are abstracted
to opaque labels because nothing in the orchestration reads them. -/
structure OrderRec where
  customer_id : String
  items : List String
  total : ℚ
  status : String
  store : String
  created_at : String
  pickup_time : Option String
  estimated_ready : Option String
  notes : Option String
deriving DecidableEq

/-- `OrderAgent.ORDERS`. -/
def ORDERS : List (String × OrderRec) :=
  [("1001", ⟨"cust_001", ["Hot Cocoa", "Pastry"], 10.94, "ready_for_pickup",
    "starbucks_downtown", "created_at_1001", some "2:00 PM today", none, some "Extra hot"⟩),
   ("1002", ⟨"cust_002", ["Latte", "Croissant"], 12.45, "in_progress",
    "starbucks_phoenix", "created_at_1002", none, some "5 minutes", some "Oat milk"⟩),
   ("1234", ⟨"cust_001", ["Cappuccino", "Pastry"], 11.44, "ready_for_pickup",
    "starbucks_phoenix", "created_at_1234", some "Now", none, some "No foam"⟩),
   ("1003", ⟨"cust_003", ["Iced Coffee"], 3.45, "completed",
    "starbucks_la", "created_at_1003", some "Yesterday", none, some "Extra ice"⟩)]

/-- Result dictionary of `OrderAgent.get_order_status`. -/
inductive OrderStatus where
  | notFound (order_id : JVal) (error : String)
  | found (order_id : String) (status : String) (items : List String) (total : ℚ)
      (store : String) (created_at : String) (pickup_time : Option String)
      (notes : Option String)

/-- `OrderAgent.get_order_status`.  The order id comes from the entity
map: a string key is looked up, other hashable values simply miss, and an
unhashable value (a JSON object or array) raises `TypeError`
(`Except.error`). -/
def get_order_status (order_id : JVal) : Except Unit OrderStatus :=
  match order_id with
  | .jobj _ => .error ()
  | .jstr s =>
    match ORDERS.lookup s with
    | none => .ok (.notFound (.jstr s) "Order not found")
    | some o =>
      .ok (.found s o.status o.items o.total o.store o.created_at
        (match o.pickup_time with | some p => some p | none => o.estimated_ready)
        o.notes)
  | v => .ok (.notFound v "Order not found")

/-! ## Store agent (`app/agents/store_agent.py`) -/

/-- One entry of `StoreAgent.STORES`. -/
structure Store where
  store_id : String
  name : String
  latitude : ℝ
  longitude : ℝ
  hours : List (String × String)
  phone : String
  address : String

/-- The `starbucks_downtown` entry of `StoreAgent.STORES`. -/
def downtownStore : Store :=
  ⟨"starbucks_downtown", "Starbucks Downtown", 40.7128, -74.0060,
   [("monday", "6:00 AM - 9:00 PM"), ("tuesday", "6:00 AM - 9:00 PM"),
    ("wednesday", "6:00 AM - 9:00 PM"), ("thursday", "6:00 AM - 9:00 PM"),
    ("friday", "6:00 AM - 10:00 PM"), ("saturday", "7:00 AM - 10:00 PM"),
    ("sunday", "7:00 AM - 9:00 PM")],
   "+1-555-0101", "123 Main St, New York, NY"⟩

/-- The `starbucks_phoenix` entry of `StoreAgent.STORES`. -/
def phoenixStore : Store :=
  ⟨"starbucks_phoenix", "Starbucks Phoenix", 33.4484, -112.0742,
   [("monday", "5:30 AM - 10:00 PM"), ("tuesday", "5:30 AM - 10:00 PM"),
    ("wednesday", "5:30 AM - 10:00 PM"), ("thursday", "5:30 AM - 10:00 PM"),
    ("friday", "5:30 AM - 11:00 PM"), ("saturday", "6:00 AM - 11:00 PM"),
    ("sunday", "6:00 AM - 10:00 PM")],
   "+1-555-0102", "456 Central Ave, Phoenix, AZ"⟩

/-- The `starbucks_la` entry of `StoreAgent.STORES`. -/
def laStore : Store :=
  ⟨"starbucks_la", "Starbucks Los Angeles", 34.0522, -118.2437,
   [("monday", "5:00 AM - 9:00 PM"), ("tuesday", "5:00 AM - 9:00 PM"),
    ("wednesday", "5:00 AM - 9:00 PM"), ("thursday", "5:00 AM - 9:00 PM"),
    ("friday", "5:00 AM - 10:00 PM"), ("saturday", "6:00 AM - 10:00 PM"),
    ("sunday", "6:00 AM - 9:00 PM")],
   "+1-555-0103", "789 Sunset Blvd, Los Angeles, CA"⟩

/-- `StoreAgent.STORES` (a Python dict iterated in insertion order, hence
a list here). -/
def STORES : List Store := [downtownStore, phoenixStore, laStore]

/-- Result dictionary of `StoreAgent.get_store_hours`. -/
structure StoreHours where
  store_name : String
  hours : List (String × String)
  phone : String
  address : String

/-- `StoreAgent.get_store_hours`. -/
def get_store_hours (store_id : String) : Option StoreHours :=
  match STORES.find? (fun s => s.store_id = store_id) with
  | some s => some ⟨s.name, s.hours, s.phone, s.address⟩
  | none => none

/-- The per-store distance of `find_nearby_stores`:
`((lat_diff ** 2 + lon_diff ** 2) ** 0.5) * 111` with
`lat_diff`/`lon_diff` the absolute coordinate differences.  Python's
`** 0.5` on a non-negative float is the square root. -/
noncomputable def storeDistance (s : Store) (loc : LocationData) : ℝ :=
  Real.sqrt (|s.latitude - loc.latitude| ^ 2 + |s.longitude - loc.longitude| ^ 2) * 111

/-- Python `round(x, 2)`.  (`round` here rounds halves up rather than to
even as CPython does; the two differ only at exact multiples of 0.005,
which affects no concrete value in this development.) -/
noncomputable def pyRound2 (x : ℝ) : ℝ := ((round (x * 100) : ℤ) : ℝ) / 100

/-- The dictionary appended to `nearby` for one store by
`find_nearby_stores`. -/
structure StoreEntry where
  store_id : String
  name : String
  distance_km : ℝ
  address : String
  phone : String

/-- The dictionary appended to `nearby` for one store. -/
noncomputable def mkStoreEntry (s : Store) (loc : LocationData) : StoreEntry where
  store_id := s.store_id
  name := s.name
  distance_km := pyRound2 (storeDistance s loc)
  address := s.address
  phone := s.phone

open Classical in
/-- `StoreAgent.find_nearby_stores`: filter the stores by raw (unrounded)
distance, then sort ascending by the rounded `distance_km` field.
Python's `sorted` is the stable ascending sort, which `insertionSort`
implements (a stable sort's output is unique).  The source's default
radius `5.0` is passed explicitly at call sites. -/
noncomputable def find_nearby_stores (user_location : LocationData)
    (max_distance_km : ℝ) : List StoreEntry :=
  let nearby := STORES.filterMap (fun s =>
    if storeDistance s user_location ≤ max_distance_km then
      some (mkStoreEntry s user_location)
    else none)
  List.insertionSort (fun a b => a.distance_km ≤ b.distance_km) nearby

/-! ## RAG documents, agent data bag, environment -/

/-- One corpus document (`RetrievalDocument`): `doc_id`, `content`, and the
five metadata keys the pipeline reads (`doc.get('metadata', {}).get(…)`),
each `none` when absent. -/
structure RagDocument where
  doc_id : Option String
  content : String
  emotion : Option String
  weather : Option String
  store : Option String
  interpreted_need : Option String
  offer : Option String
deriving DecidableEq

/-- The `agent_data` dictionary built by `Synthesizer._route_to_agents`.
An outer `none` means the corresponding key is absent from the dictionary
(`store_hours` keeps the inner `Option` because `get_store_hours` itself
returns an optional record). -/
structure AgentData where
  intent : String
  emotion : Option String
  entities : List (String × JVal)
  store_hours : Option (Option StoreHours)
  nearby_stores : Option (List StoreEntry)
  inventory : Option (List AvailResult)
  order : Option OrderStatus
  offers : Option (List Offer)

/-- The external collaborators of one process instance:
* `llm` — `llm_client.query`; `Except.error` is an API exception or a
  `None` completion (both end in the same local `except` branches);
* `parseJson` — `json.loads` inside `llm_client.extract_json`, `none`
  being `JSONDecodeError`;
* `ragDocs` — the corpus loaded at startup (empty when the JSON file is
  absent, in which case `RAGService.vector_store` is `None`);
* `search` — `VectorStore.search` (sklearn TF-IDF scoring, `top_k = 5`),
  whose failure the source converts to an empty result list;
* `reprFloat`, `reprData` — Python's `str()` rendering of floats and of
  the agent-data dictionary, used only to build prompt text. -/
structure Env where
  llm : String → Except Unit String
  parseJson : String → Option JVal
  ragDocs : List RagDocument
  search : String → Except Unit (List (RagDocument × ℚ))
  reprFloat : ℝ → String
  reprData : AgentData → String

/-- Python `f"{v}"` on an optional string (`None` renders as `"None"`). -/
def optRepr (v : Option String) : String :=
  match v with
  | some s => s
  | none => "None"

/-! ## RAG service (`app/rag/rag_service.py`) -/

/-- The six pipeline stages, used to label instrumentation events. -/
inductive RagStage where
  | rewrite
  | retrieve
  | rerank
  | compress
  | generate
  | validate
deriving DecidableEq

/-- One instrumentation event: which stage ran, with which payload (the
prompt sent to the generative model, or the query / context handled). -/
structure RagEvent where
  stage : RagStage
  payload : String
deriving DecidableEq

/-- Prompt of `RAGService._rewrite_query`. -/
def rewrite_prompt (query : String) : String :=
  "Rewrite this vague customer query into a structured form that captures intent, emotion, and context:\n\nOriginal query: \"" ++
  query ++
  "\"\n\nProvide a structured interpretation that includes:\n1. Primary intent (what they need)\n2. Emotional state\n3. Context (time, weather, location relevance)\n4. Recommended store type\n\nBe concise and specific."

/-- `RAGService._rewrite_query`: one generative call, falling back to the
original query on failure. -/
def rewrite_query (env : Env) (query : String) : String × List RagEvent :=
  let p := rewrite_prompt query
  match env.llm p with
  | .ok r => (r, [⟨.rewrite, p⟩])
  | .error _ => (query, [⟨.rewrite, p⟩])

/-- `VectorStore.search` as observed by the service: the oracle's result,
with the source's own `except` branch turning failure into `[]`. -/
def vector_search (env : Env) (query : String) : List (RagDocument × ℚ) :=
  match env.search query with
  | .ok rs => rs
  | .error _ => []

/-- `RAGService._retrieve_documents` (`top_k = 5` is folded into the
`search` oracle): no vector store — which happens exactly when the corpus
is empty — yields no documents. -/
def retrieve_documents (env : Env) (query : String) : List RagDocument × List RagEvent :=
  if env.ragDocs.isEmpty then ([], [⟨.retrieve, query⟩])
  else ((vector_search env query).map (·.1), [⟨.retrieve, query⟩])

/-- The list-comprehension filter of the rerank score parser:
`w.replace('.', '').isdigit()`. -/
def isDigitsWord (w : List Char) : Bool :=
  let r := w.filter (· ≠ '.')
  !r.isEmpty && r.all isDigitC

/-- Score extraction of `RAGService._rerank_documents`: first
whitespace-separated token made of digits and dots, parsed by `float` and
clamped to `[0, 1]`; any failure (no such token, or an unparsable token
such as one with two dots) yields the default `0.5`. -/
def extract_score (response : String) : ℚ :=
  let ws := (pySplitWs response.toList).filter isDigitsWord
  match ws with
  | [] => 0.5
  | w :: _ =>
    match pyFloatStr w with
    | none => 0.5
    | some s => pymin 1.0 (pymax 0.0 s)

/-- Prompt of the per-document scoring call of
`RAGService._rerank_documents`. -/
def score_prompt (query : String) (d : RagDocument) : String :=
  "Rate how relevant this customer interaction is to the query.\n\nQuery: " ++
  query ++ "\nCustomer context: " ++ d.content ++ "\nInterpreted need: " ++
  (d.interpreted_need.getD "") ++
  "\n\nProvide a relevance score (0-1) with brief explanation."

/-- The scoring loop of `RAGService._rerank_documents`: one generative
call per document; a failing call aborts the loop (the surrounding
`except` then returns the documents unranked).  Events record each
attempted call. -/
def score_docs (env : Env) (query : String) :
    List RagDocument → Except Unit (List (RagDocument × ℚ)) × List RagEvent
  | [] => (.ok [], [])
  | d :: ds =>
    let p := score_prompt query d
    match env.llm p with
    | .error e => (.error e, [⟨.rerank, p⟩])
    | .ok resp =>
      let s := extract_score resp
      let rest := score_docs env query ds
      ((rest.1).map (fun l => (d, s) :: l), ⟨.rerank, p⟩ :: rest.2)

/-- `RAGService._rerank_documents`: score every document, stable-sort
descending by score (`sort(key=…, reverse=True)`; `insertionSort` with the
reversed relation is that stable sort), drop the scores; if the scoring
calls error, degrade to the original retrieval order. -/
def rerank_documents (env : Env) (documents : List RagDocument) (query : String) :
    List RagDocument × List RagEvent :=
  if documents.isEmpty then ([], [])
  else
    let r := score_docs env query documents
    match r.1 with
    | .error _ => (documents, r.2)
    | .ok scored =>
      ((List.insertionSort (fun a b : RagDocument × ℚ => b.2 ≤ a.2) scored).map (·.1), r.2)

/-- One entry of the `context_parts` list of
`RAGService._compress_context`. -/
def doc_context_part (d : RagDocument) : String :=
  "\n- Context: " ++ d.content ++
  "\n  Emotion: " ++ (d.emotion.getD "unknown") ++
  "\n  Weather: " ++ (d.weather.getD "unknown") ++
  "\n  Store: " ++ (d.store.getD "unknown") ++
  "\n  Need: " ++ (d.interpreted_need.getD "unknown") ++
  "\n  Offer: " ++ (d.offer.getD "none") ++ "\n"

/-- `RAGService._compress_context`: at most the top three documents; an
empty list yields the fixed placeholder.  (The source's `except` branch is
unreachable: the body only reads dictionary fields.) -/
def compress_context (documents : List RagDocument) : String :=
  if documents.isEmpty then "No relevant information found."
  else
    "Based on similar customer interactions:\n" ++
    String.intercalate "\n" ((documents.take 3).map doc_context_part)

/-- Prompt of `RAGService._generate_answer`. -/
def generate_prompt (query context : String) : String :=
  "You are a helpful customer service AI. Answer the customer\x27s query using the provided context from similar customer interactions.\n\nCustomer Query: " ++
  query ++ "\n\nContext from similar interactions:\n" ++ context ++
  "\n\nProvide a helpful, personalized response that:\n1. Addresses their likely need\n2. Recommends specific store/offer if relevant\n3. Considers weather/location/emotion\n4. Is concise and actionable"

/-- `RAGService._generate_answer`: one generative call with a fixed
apology fallback. -/
def generate_answer (env : Env) (query context : String) : String × List RagEvent :=
  let p := generate_prompt query context
  match env.llm p with
  | .ok a => (a, [⟨.generate, p⟩])
  | .error _ => ("I\x27m unable to answer that right now. Please try again.", [⟨.generate, p⟩])

/-- The four fact strings extracted from one document by
`RAGService._check_hallucination`. -/
def doc_facts (d : RagDocument) : List String :=
  ["store: " ++ optRepr d.store,
   "emotion: " ++ optRepr d.emotion,
   "weather: " ++ optRepr d.weather,
   "need: " ++ optRepr d.interpreted_need]

/-- Prompt of the consistency check. -/
def check_prompt (answer : String) (facts : List String) : String :=
  "Analyze if this answer contradicts the source information.\n\nAnswer: " ++
  answer ++ "\n\nSource facts:\n" ++ String.intercalate ", " facts ++
  "\n\nIs the answer consistent with the sources? Answer yes or no."

/-- `RAGService._check_hallucination`: no source documents is itself a
hallucination; otherwise one generative call, flagged iff `"no"` occurs in
the lower-cased response; a failing call is treated as consistent. -/
def check_hallucination (env : Env) (answer : String) (documents : List RagDocument) :
    Bool × List RagEvent :=
  if documents.isEmpty then (true, [])
  else
    let facts := (documents.flatMap doc_facts).take 5
    let p := check_prompt answer facts
    match env.llm p with
    | .ok resp => (hasSub "no".toList (pyLower resp.toList), [⟨.validate, p⟩])
    | .error _ => (false, [⟨.validate, p⟩])

/-- The response dictionary of `RAGService.process_query`.  `none` in
`rewritten_query`/`sources` records that the short-circuit dictionary
omits those keys (read back with `.get` defaults by the synthesizer). -/
structure RagResult where
  answer : String
  confidence : ℚ
  source_count : ℕ
  rewritten_query : Option String
  requires_escalation : Bool
  sources : Option (List (Option String))

/-- The not-flagged confidence formula of `process_query`:
`min(0.95, 0.6 + len(documents) * 0.1)`. -/
def rag_confidence (n : ℕ) : ℚ := pymin 0.95 (0.6 + (n : ℚ) * 0.1)

/-- `RAGService.process_query`: the six-stage pipeline.  `user_location`
is accepted and ignored exactly as in the source.  The enclosing
`try/except` of the source is unreachable here because every stage already
catches its own failures; its error dictionary is therefore not modelled. -/
def process_query (env : Env) (query : String) (user_location : Option (ℝ × ℝ)) :
    RagResult × List RagEvent :=
  let rw := rewrite_query env query
  let rewritten := rw.1
  let ret := retrieve_documents env rewritten
  let documents := ret.1
  if documents.isEmpty then
    (⟨"I couldn\x27t find relevant information to answer that query.", 0.3, 0, none, true, none⟩,
     rw.2 ++ ret.2)
  else
    let rr := rerank_documents env documents query
    let documents2 := rr.1
    let context := compress_context documents2
    let gen := generate_answer env query context
    let answer := gen.1
    let ch := check_hallucination env answer documents2
    let result : RagResult :=
      if ch.1 then
        ⟨"I\x27m not confident about that answer. Let me connect you with a specialist who can help better.",
         0.4, documents2.length, some rewritten, true,
         some ((documents2.take 3).map (·.doc_id))⟩
      else
        ⟨answer, rag_confidence documents2.length, documents2.length, some rewritten, false,
         some ((documents2.take 3).map (·.doc_id))⟩
    (result, rw.2 ++ ret.2 ++ rr.2 ++ [⟨.compress, context⟩] ++ gen.2 ++ ch.2)

/-! ## Intent agent (`app/agents/intent_agent.py`) -/

/-- Prompt of `IntentAgent.detect_intent`. -/
def intent_prompt (message : String) : String :=
  "Analyze this message: \x27" ++ message ++ "\x27"

/-- `llm_client.extract_json`: `json.loads`, with `JSONDecodeError`
converted to the empty dictionary. -/
def extract_json (env : Env) (text : String) : JVal :=
  match env.parseJson text with
  | some v => v
  | none => .jobj []

/-- The body of `IntentAgent.detect_intent`'s `try` block.  Failure cases,
all caught by the surrounding `except`: the generative call raises; the
parsed JSON is not a dictionary (`.get` raises `AttributeError`);
`float(confidence)` raises; or pydantic rejects a non-string intent, a
non-string non-null emotion, or a non-dictionary entities value.  (Python
evaluates these in constructor-argument order; the order is irrelevant
because every failure lands in the same fallback.) -/
def detect_intent_inner (env : Env) (message : String) : Except Unit IntentResult := do
  let resp ← env.llm (intent_prompt message)
  let data := extract_json env resp
  let dataMap ← (match data with
    | .jobj m => Except.ok m
    | _ => Except.error ())
  let confidence ← pyFloatJ ((dataMap.lookup "confidence").getD (.jnum 0.5))
  let intent ← (match (dataMap.lookup "intent").getD (.jstr "other") with
    | .jstr s => Except.ok s
    | _ => Except.error ())
  let emotion ← (match (dataMap.lookup "emotion").getD .jnull with
    | .jnull => Except.ok (none : Option String)
    | .jstr s => Except.ok (some s)
    | _ => Except.error ())
  let entities ← (match (dataMap.lookup "entities").getD (.jobj []) with
    | .jobj m => Except.ok m
    | _ => Except.error ())
  return ⟨intent, confidence, entities, emotion⟩

/-- `IntentAgent.detect_intent` with its catch-all fallback
(`intent="other"`, `confidence=0.0`, `emotion="neutral"`). -/
def detect_intent (env : Env) (message : String) : IntentResult :=
  match detect_intent_inner env message with
  | .ok r => r
  | .error _ => ⟨"other", 0.0, [], some "neutral"⟩

/-! ## Synthesizer (`app/services/synthesizer.py`) -/

/-- `ChatResponse` (the `timestamp` field, a `datetime.now()` default
never read by the code, is omitted). -/
structure RagData where
  rewritten_query : Option String
  sources : List (Option String)
  source_count : ℕ

/-- The `data` payload of a `ChatResponse`: the tooling-mode agent bag or
the RAG-mode summary dictionary. -/
inductive ResponseData where
  | tooling (bag : AgentData)
  | rag (d : RagData)

/-- `ChatResponse`. -/
structure ChatResponse where
  message : String
  intent : Option String
  emotion : Option String
  confidence : ℚ
  mode : String
  data : Option ResponseData
  requires_escalation : Bool

/-- One knowledge-agent invocation, recorded by the dispatcher
instrumentation. -/
inductive AgentCall where
  | findNearby (latitude longitude max_distance_km : ℝ)
  | getHours (store_id : String)
  | checkAvail (store_id : String) (product : JVal)
  | getOrder (order_id : JVal)
  | getOffers (customer_id : String) (weather : Option String)

/-- The availability loop of the `stock_check` branch; a raising
`check_availability` (non-string product) aborts it.  Events record each
attempted call. -/
def check_loop (product : JVal) :
    List StoreEntry → Except Unit (List AvailResult) × List AgentCall
  | [] => (.ok [], [])
  | st :: rest =>
    match check_availability st.store_id product with
    | .error e => (.error e, [.checkAvail st.store_id product])
    | .ok a =>
      let r := check_loop product rest
      ((r.1).map (fun l => a :: l), .checkAvail st.store_id product :: r.2)

/-- `Synthesizer._route_to_agents`.  The result is the `agent_data`
dictionary together with the list of knowledge-agent calls performed; an
`Except.error` is an exception propagating out of the dispatcher (which the
source does not catch locally). -/
noncomputable def route_to_agents (intent_result : IntentResult) (request : ChatRequest)
    (message : String) : Except Unit (AgentData × List AgentCall) :=
  let base : AgentData :=
    ⟨intent_result.intent, intent_result.emotion, intent_result.entities,
     none, none, none, none, none⟩
  if intent_result.intent = "store_hours" then
    let nearby := find_nearby_stores request.location 5.0
    let ev := [AgentCall.findNearby request.location.latitude request.location.longitude 5.0]
    match nearby with
    | [] => .ok (base, ev)
    | store :: _ =>
      let hours := get_store_hours store.store_id
      .ok (⟨base.intent, base.emotion, base.entities,
            some hours, some nearby, none, none, none⟩,
           ev ++ [AgentCall.getHours store.store_id])
  else if intent_result.intent = "stock_check" then
    let product := (intent_result.entities.lookup "product").getD (.jstr "item")
    let nearby := find_nearby_stores request.location 5.0
    let ev := [AgentCall.findNearby request.location.latitude request.location.longitude 5.0]
    let cl := check_loop product nearby
    match cl.1 with
    | .error e => .error e
    | .ok inv =>
      .ok (⟨base.intent, base.emotion, base.entities,
            none, none, some inv, none, none⟩, ev ++ cl.2)
  else if intent_result.intent = "order_status" then
    match intent_result.entities.lookup "order_id" with
    | none => .ok (base, [])
    | some oid =>
      if jvalTruthy oid then
        match get_order_status oid with
        | .error e => .error e
        | .ok st =>
          .ok (⟨base.intent, base.emotion, base.entities,
                none, none, none, some st, none⟩, [AgentCall.getOrder oid])
      else .ok (base, [])
  else if intent_result.intent = "location_recommendation" then
    let nearby := find_nearby_stores request.location 5.0
    .ok (⟨base.intent, base.emotion, base.entities,
          none, some nearby, none, none, none⟩,
         [AgentCall.findNearby request.location.latitude request.location.longitude 5.0])
  else if intent_result.intent = "product_recommendation" then
    let weather :=
      match request.customer_profile with
      | some p => p.weather_context
      | none => none
    let offers := get_personalized_offers request.customer_id weather none
    let nearby := find_nearby_stores request.location 3.0
    .ok (⟨base.intent, base.emotion, base.entities,
          none, some nearby, none, none, some offers⟩,
         [AgentCall.getOffers request.customer_id weather,
          AgentCall.findNearby request.location.latitude request.location.longitude 3.0])
  else .ok (base, [])

/-- Models Python's `f"{confidence:.2f}"` rendering (exact text is never
inspected; it only feeds prompt construction). -/
def fmtConf (q : ℚ) : String := toString q

/-- The `context` f-string of `Synthesizer._generate_response`. -/
def response_context (env : Env) (intent_result : IntentResult) (agent_data : AgentData)
    (request : ChatRequest) : String :=
  "\nIntent: " ++ intent_result.intent ++
  "\nEmotion: " ++ optRepr intent_result.emotion ++
  "\nConfidence: " ++ fmtConf intent_result.confidence ++
  "\nLocation: " ++ env.reprFloat request.location.latitude ++ ", " ++
  env.reprFloat request.location.longitude ++
  "\n\nData:\n" ++ (env.reprData agent_data).take 1000 ++ "  # Limit context size\n"

/-- The final prompt of `Synthesizer._generate_response`. -/
def response_prompt (env : Env) (intent_result : IntentResult) (agent_data : AgentData)
    (request : ChatRequest) : String :=
  "\nBased on the customer\x27s message and intent analysis, generate a personalized response.\n\nCustomer message: " ++
  request.message ++ "\n" ++ response_context env intent_result agent_data request ++
  "\n\nGenerate a concise, helpful response that addresses their need.\n"

/-- `Synthesizer._generate_response`: one generative call wrapped into a
tooling-mode `ChatResponse`; any failure (API error, or the `None`
completion that makes the pydantic constructor raise) lands in the fixed
apology with `confidence = 0.0` and `requires_escalation = True`. -/
def generate_response (env : Env) (intent_result : IntentResult) (agent_data : AgentData)
    (request : ChatRequest) : ChatResponse :=
  match env.llm (response_prompt env intent_result agent_data request) with
  | .ok text =>
    ⟨text, some intent_result.intent, intent_result.emotion, intent_result.confidence,
     "tooling", some (.tooling agent_data), false⟩
  | .error _ =>
    ⟨"I\x27m having trouble processing your request. Please try again.",
     some intent_result.intent, intent_result.emotion, 0.0, "tooling", none, true⟩

/-- `Synthesizer._process_rag_mode`: run the pipeline on the masked
message and wrap the result dictionary (`request.location` is a required,
always-truthy pydantic model, so `user_location` is always built; the
`except` fallback is unreachable because `process_query` is total). -/
def process_rag_mode (env : Env) (request : ChatRequest) (message : String) : ChatResponse :=
  let user_location : Option (ℝ × ℝ) :=
    some (request.location.latitude, request.location.longitude)
  let r := (process_query env message user_location).1
  ⟨r.answer, none, none, r.confidence, "rag",
   some (.rag ⟨r.rewritten_query, r.sources.getD [], r.source_count⟩),
   r.requires_escalation⟩

/-- `Synthesizer._create_error_response`: the fixed generic-error
response (`mode` and `data` keep their schema defaults). -/
def create_error_response (request : ChatRequest) : ChatResponse :=
  ⟨"I encountered an error processing your request. Please try again or contact support.",
   none, none, 0.0, "tooling", none, true⟩

/-- The `try` body of `Synthesizer.process_request`: PII masking, intent
detection, the confidence gate, and one of the two execution paths.  An
`Except.error` is an exception reaching the top-level handler (only the
dispatcher can raise; every other step catches its own failures). -/
noncomputable def process_request_inner (env : Env) (request : ChatRequest) : Except Unit ChatResponse := do
  let masked := (mask_text request.message).1
  let intent_result := detect_intent env masked
  if intent_result.confidence < CONFIDENCE_THRESHOLD then
    return process_rag_mode env request masked
  else do
    let ra ← route_to_agents intent_result request masked
    return generate_response env intent_result ra.1 request

/-- `Synthesizer.process_request`: the top-level `except` converts any
escaped exception into the fixed generic-error response. -/
noncomputable def process_request (env : Env) (request : ChatRequest) : ChatResponse :=
  match process_request_inner env request with
  | .ok r => r
  | .error _ => create_error_response request

/-- The two execution modes selected by the confidence router. -/
inductive Mode where
  | rag
  | tooling
deriving DecidableEq

/-- The confidence router of `process_request` (lines 47-49), as a
standalone function of the only two quantities it inspects. -/
def routeMode (confidence threshold : ℚ) : Mode :=
  if confidence < threshold then .rag else .tooling

/-! ## Verification-layer definitions

Named accessors for the intermediate values of `process_query` (so that
theorems can speak about the retrieved and reranked document lists), and
the concrete fixtures — environments, requests, documents — at which the
witness theorems evaluate the embedding. -/

/-- The rewritten query produced inside `process_query`. -/
def pq_rewritten (env : Env) (query : String) : String := (rewrite_query env query).1

/-- The retrieved document list produced inside `process_query`. -/
def pq_documents (env : Env) (query : String) : List RagDocument :=
  (retrieve_documents env (pq_rewritten env query)).1

/-- The reranked document list produced inside `process_query`. -/
def pq_documents2 (env : Env) (query : String) : List RagDocument :=
  (rerank_documents env (pq_documents env query) query).1

/-- The generated answer produced inside `process_query`. -/
def pq_answer (env : Env) (query : String) : String :=
  (generate_answer env query (compress_context (pq_documents2 env query))).1

/-- The hallucination flag produced inside `process_query`. -/
def pq_flagged (env : Env) (query : String) : Bool :=
  (check_hallucination env (pq_answer env query) (pq_documents2 env query)).1

/-- String rendering of a routing decision, matching the `mode` field the
two paths write into their `ChatResponse`s. -/
def modeString : Mode → String
  | .rag => "rag"
  | .tooling => "tooling"

/-- Fixture: a caller standing exactly at the downtown store's
coordinates. -/
def dtLoc : LocationData := ⟨40.7128, -74.0060, none⟩

/-- Fixture: a request sent from the downtown coordinates. -/
def reqDT : ChatRequest := ⟨"hello", "cust_001", dtLoc, none, none⟩

/-- Fixture: a minimal corpus document. -/
def d0 : RagDocument := ⟨none, "", none, none, none, none, none⟩

/-- Fixture: a second corpus document, distinguishable from `d0`. -/
def d1 : RagDocument := ⟨some "d1", "", none, none, none, none, none⟩

/-- Fixture: every collaborator fails and the corpus is empty. -/
def envFail : Env :=
  ⟨fun _ => .error (), fun _ => none, [], fun _ => .error (), fun _ => "", fun _ => ""⟩

/-- Fixture: the generative model fails but one document exists and is
retrievable. -/
def envFailDocs : Env :=
  ⟨fun _ => .error (), fun _ => none, [d0], fun _ => .ok [(d0, 1)], fun _ => "", fun _ => ""⟩

/-- Fixture: every generative call answers `"no"` (so the consistency
check flags the answer) over a one-document corpus. -/
def envNo : Env :=
  ⟨fun _ => .ok "no", fun _ => none, [d0], fun _ => .ok [(d0, 1)], fun _ => "", fun _ => ""⟩

/-- Fixture: every generative call answers `"yes"` (so the consistency
check passes) over a one-document corpus. -/
def envYes : Env :=
  ⟨fun _ => .ok "yes", fun _ => none, [d0], fun _ => .ok [(d0, 1)], fun _ => "", fun _ => ""⟩

/-- Fixture: intent detection reports `stock_check` with confidence 0.9
and a non-string product entity. -/
def envSC : Env :=
  ⟨fun _ => .ok "j",
   fun _ => some (.jobj [("intent", .jstr "stock_check"), ("confidence", .jnum 0.9),
     ("entities", .jobj [("product", .jnum 5)])]),
   [], fun _ => .error (), fun _ => "", fun _ => ""⟩

/-- Fixture: intent detection reports intent `other` with confidence 0.9
and the response model answers normally. -/
def envHigh : Env :=
  ⟨fun _ => .ok "x",
   fun _ => some (.jobj [("intent", .jstr "other"), ("confidence", .jnum 0.9)]),
   [], fun _ => .error (), fun _ => "", fun _ => ""⟩

/-! ## Lemmas: pipeline characterizations and concrete evaluations -/

/-- The result dictionary of `process_query`, re-expressed through the
named accessors (definitional case split). -/
lemma process_query_result (env : Env) (query : String) (user_location : Option (ℝ × ℝ)) :
    (process_query env query user_location).1 =
      if (pq_documents env query).isEmpty then
        ⟨"I couldn\x27t find relevant information to answer that query.", 0.3, 0, none, true, none⟩
      else if pq_flagged env query then
        ⟨"I\x27m not confident about that answer. Let me connect you with a specialist who can help better.",
         0.4, (pq_documents2 env query).length, some (pq_rewritten env query), true,
         some (((pq_documents2 env query).take 3).map (·.doc_id))⟩
      else
        ⟨pq_answer env query, rag_confidence (pq_documents2 env query).length,
         (pq_documents2 env query).length, some (pq_rewritten env query), false,
         some (((pq_documents2 env query).take 3).map (·.doc_id))⟩ := by
  simp only [process_query, pq_flagged, pq_answer, pq_documents2, pq_documents, pq_rewritten]
  by_cases h : ((retrieve_documents env (rewrite_query env query).1).1).isEmpty
  · simp [h]
  · by_cases h2 : (check_hallucination env
        (generate_answer env query (compress_context
          (rerank_documents env (retrieve_documents env (rewrite_query env query).1).1 query).1)).1
        (rerank_documents env (retrieve_documents env (rewrite_query env query).1).1 query).1).1
    · simp [h, h2]
    · simp [h, h2]

/-- The trace of `process_query`, re-expressed through the named
accessors (definitional case split). -/
lemma process_query_trace (env : Env) (query : String) (user_location : Option (ℝ × ℝ)) :
    (process_query env query user_location).2 =
      if (pq_documents env query).isEmpty then
        (rewrite_query env query).2 ++ (retrieve_documents env (pq_rewritten env query)).2
      else
        (rewrite_query env query).2 ++ (retrieve_documents env (pq_rewritten env query)).2 ++
        (rerank_documents env (pq_documents env query) query).2 ++
        [⟨.compress, compress_context (pq_documents2 env query)⟩] ++
        (generate_answer env query (compress_context (pq_documents2 env query))).2 ++
        (check_hallucination env (pq_answer env query) (pq_documents2 env query)).2 := by
  simp only [process_query, pq_flagged, pq_answer, pq_documents2, pq_documents, pq_rewritten]
  by_cases h : ((retrieve_documents env (rewrite_query env query).1).1).isEmpty
  · simp [h]
  · by_cases h2 : (check_hallucination env
        (generate_answer env query (compress_context
          (rerank_documents env (retrieve_documents env (rewrite_query env query).1).1 query).1)).1
        (rerank_documents env (retrieve_documents env (rewrite_query env query).1).1 query).1).1
    · simp [h, h2]
    · simp [h, h2]

lemma storeDistance_nonneg (s : Store) (loc : LocationData) : 0 ≤ storeDistance s loc := by
  unfold storeDistance
  have := Real.sqrt_nonneg (|s.latitude - loc.latitude| ^ 2 + |s.longitude - loc.longitude| ^ 2)
  nlinarith

lemma storeDistance_self (s : Store) (loc : LocationData)
    (h1 : s.latitude = loc.latitude) (h2 : s.longitude = loc.longitude) :
    storeDistance s loc = 0 := by
  unfold storeDistance
  rw [h1, h2]
  simp

lemma storeDistance_far (s : Store) (loc : LocationData)
    (h : 1 ≤ |s.longitude - loc.longitude|) : 111 ≤ storeDistance s loc := by
  unfold storeDistance
  have h0 : (1 : ℝ) ≤
      Real.sqrt (|s.latitude - loc.latitude| ^ 2 + |s.longitude - loc.longitude| ^ 2) := by
    have h1 : (1 : ℝ) = Real.sqrt 1 := by rw [Real.sqrt_one]
    rw [h1]
    apply Real.sqrt_le_sqrt
    nlinarith [sq_nonneg (|s.latitude - loc.latitude|), abs_nonneg (s.latitude - loc.latitude)]
  nlinarith

lemma phoenix_far_dt : ¬ (storeDistance phoenixStore dtLoc ≤ (5.0 : ℝ)) := by
  have h : 111 ≤ storeDistance phoenixStore dtLoc := by
    apply storeDistance_far
    have h2 : phoenixStore.longitude - dtLoc.longitude = -38.0682 := by
      show (-112.0742 : ℝ) - (-74.0060) = -38.0682
      norm_num
    rw [h2, abs_of_nonpos (by norm_num)]
    norm_num
  intro hc
  nlinarith

lemma la_far_dt : ¬ (storeDistance laStore dtLoc ≤ (5.0 : ℝ)) := by
  have h : 111 ≤ storeDistance laStore dtLoc := by
    apply storeDistance_far
    have h2 : laStore.longitude - dtLoc.longitude = -44.2377 := by
      show (-118.2437 : ℝ) - (-74.0060) = -44.2377
      norm_num
    rw [h2, abs_of_nonpos (by norm_num)]
    norm_num
  intro hc
  nlinarith

lemma dt_dist_zero : storeDistance downtownStore dtLoc = 0 :=
  storeDistance_self _ _ rfl rfl

lemma dt_near_dt : storeDistance downtownStore dtLoc ≤ (5.0 : ℝ) := by
  rw [dt_dist_zero]; norm_num

/-- Concrete evaluation: from the downtown coordinates with the default
5 km radius, `find_nearby_stores` returns exactly the downtown store. -/
lemma find_dt_5 : find_nearby_stores dtLoc 5.0 = [mkStoreEntry downtownStore dtLoc] := by
  unfold find_nearby_stores STORES
  simp only [List.filterMap_cons, List.filterMap_nil, if_pos dt_near_dt,
    if_neg phoenix_far_dt, if_neg la_far_dt]
  simp [List.insertionSort]

/-- Concrete evaluation: a negative radius filters out every store, even
one at distance zero. -/
lemma find_dt_neg : find_nearby_stores dtLoc (-1 : ℝ) = [] := by
  have h1 : ¬ (storeDistance downtownStore dtLoc ≤ (-1 : ℝ)) := by
    rw [dt_dist_zero]; norm_num
  have h2 : ¬ (storeDistance phoenixStore dtLoc ≤ (-1 : ℝ)) := by
    have := storeDistance_nonneg phoenixStore dtLoc; intro hc; linarith
  have h3 : ¬ (storeDistance laStore dtLoc ≤ (-1 : ℝ)) := by
    have := storeDistance_nonneg laStore dtLoc; intro hc; linarith
  unfold find_nearby_stores STORES
  simp only [List.filterMap_cons, List.filterMap_nil, if_neg h1, if_neg h2, if_neg h3]
  simp [List.insertionSort]

/-- Case characterization of `process_request`: the confidence gate, then
either the RAG path or the dispatcher followed by response generation,
with the top-level handler absorbing a dispatcher exception. -/
lemma process_request_cases (env : Env) (req : ChatRequest) :
    process_request env req =
      if (detect_intent env (mask_text req.message).1).confidence < CONFIDENCE_THRESHOLD then
        process_rag_mode env req (mask_text req.message).1
      else
        match route_to_agents (detect_intent env (mask_text req.message).1) req
            (mask_text req.message).1 with
        | .ok ra => generate_response env (detect_intent env (mask_text req.message).1) ra.1 req
        | .error _ => create_error_response req := by
  unfold process_request process_request_inner
  by_cases h : (detect_intent env (mask_text req.message).1).confidence < CONFIDENCE_THRESHOLD
  · simp [h, pure, Except.pure]
  · cases hr : route_to_agents (detect_intent env (mask_text req.message).1) req
      (mask_text req.message).1 with
    | ok ra => simp only [h, if_false, hr]; rfl
    | error e => simp only [h, if_false, hr]; rfl

lemma process_rag_mode_mode (env : Env) (req : ChatRequest) (m : String) :
    (process_rag_mode env req m).mode = "rag" := rfl

lemma generate_response_mode (env : Env) (ir : IntentResult) (bag : AgentData)
    (req : ChatRequest) : (generate_response env ir bag req).mode = "tooling" := by
  unfold generate_response
  cases env.llm (response_prompt env ir bag req) <;> rfl

/-- Concrete evaluation: with the `envSC` oracle, intent detection reads
back `stock_check` at confidence 0.9 with the non-string product entity. -/
lemma detect_envSC :
    detect_intent envSC (mask_text reqDT.message).1 =
      ⟨"stock_check", 0.9, [("product", JVal.jnum 5)], none⟩ := rfl

/-- Concrete evaluation: the dispatcher raises on a `stock_check` intent
whose product entity is the number 5 (Python `5 .lower()` —
`AttributeError`), the caller standing next to the downtown store. -/
lemma route_err (msg : String) :
    route_to_agents ⟨"stock_check", 0.9, [("product", JVal.jnum 5)], none⟩ reqDT msg =
      .error () := by
  have h5 : find_nearby_stores reqDT.location 5.0 = [mkStoreEntry downtownStore dtLoc] :=
    find_dt_5
  simp only [route_to_agents, h5]
  norm_num
  rfl

/-- Concrete evaluation: the whole `try` body of `process_request` raises
on the `envSC` fixture. -/
lemma inner_err : process_request_inner envSC reqDT = .error () := by
  simp only [process_request_inner, detect_envSC]
  rw [if_neg (by norm_num [CONFIDENCE_THRESHOLD] : ¬ ((0.9 : ℚ) < CONFIDENCE_THRESHOLD))]
  rw [route_err]
  rfl

lemma rewrite_query_events (env : Env) (q : String) :
    (rewrite_query env q).2 = [⟨.rewrite, rewrite_prompt q⟩] := by
  unfold rewrite_query
  cases h : env.llm (rewrite_prompt q) <;> simp [h]

lemma retrieve_documents_events (env : Env) (q : String) :
    (retrieve_documents env q).2 = [⟨.retrieve, q⟩] := by
  unfold retrieve_documents
  by_cases h : env.ragDocs.isEmpty <;> simp [h]

lemma generate_answer_events (env : Env) (q ctx : String) :
    (generate_answer env q ctx).2 = [⟨.generate, generate_prompt q ctx⟩] := by
  unfold generate_answer
  cases h : env.llm (generate_prompt q ctx) <;> simp [h]

lemma check_hallucination_events (env : Env) (a : String) (docs : List RagDocument) :
    ∀ e ∈ (check_hallucination env a docs).2, e.stage = RagStage.validate := by
  unfold check_hallucination
  by_cases h : docs.isEmpty
  · simp [h]
  · simp only [h, Bool.false_eq_true, if_false]
    cases env.llm (check_prompt a ((docs.flatMap doc_facts).take 5)) <;> simp_all

lemma score_docs_events (env : Env) (q : String) :
    ∀ docs : List RagDocument, ∀ e ∈ (score_docs env q docs).2,
      e.stage = RagStage.rerank ∧ ∃ d ∈ docs, e.payload = score_prompt q d := by
  intro docs
  induction docs with
  | nil => intro e he; simp [score_docs] at he
  | cons d ds ih =>
    intro e he
    unfold score_docs at he
    cases hl : env.llm (score_prompt q d) with
    | error err =>
      simp only [hl] at he
      simp at he
      subst he
      exact ⟨rfl, d, by simp, rfl⟩
    | ok resp =>
      simp only [hl] at he
      simp at he
      rcases he with he | he
      · subst he; exact ⟨rfl, d, by simp, rfl⟩
      · obtain ⟨hs, d', hd', hp⟩ := ih e he
        exact ⟨hs, d', by simp [hd'], hp⟩

lemma rerank_documents_events (env : Env) (q : String) (docs : List RagDocument) :
    ∀ e ∈ (rerank_documents env docs q).2,
      e.stage = RagStage.rerank ∧ ∃ d ∈ docs, e.payload = score_prompt q d := by
  unfold rerank_documents
  by_cases h : docs.isEmpty
  · simp [h]
  · simp only [h, Bool.false_eq_true, if_false]
    cases hs : (score_docs env q docs).1 <;> intro e he <;>
      exact score_docs_events env q docs e he

lemma score_docs_ok_payloads (env : Env) (q : String) :
    ∀ docs : List RagDocument, ∀ scored ev, score_docs env q docs = (.ok scored, ev) →
      ev.map (·.payload) = docs.map (score_prompt q) := by
  intro docs
  induction docs with
  | nil => intro scored ev h; unfold score_docs at h; simp at h; simp [h.2]
  | cons d ds ih =>
    intro scored ev h
    unfold score_docs at h
    cases hl : env.llm (score_prompt q d) with
    | error err => simp only [hl] at h; simp at h
    | ok resp =>
      simp only [hl] at h
      cases hrest : (score_docs env q ds).1 with
      | error err => simp only [hrest] at h; simp [Except.map] at h
      | ok l =>
        simp only [hrest] at h
        simp [Except.map] at h
        obtain ⟨h1, h2⟩ := h
        subst h2
        simp [ih l (score_docs env q ds).2 (by rw [← hrest])]

lemma score_docs_nil (env : Env) (q : String) : score_docs env q [] = (.ok [], []) := rfl

lemma rerank_documents_ok (env : Env) (q : String) (docs : List RagDocument)
    (scored : List (RagDocument × ℚ)) (ev : List RagEvent)
    (h : score_docs env q docs = (.ok scored, ev)) :
    rerank_documents env docs q =
      ((List.insertionSort (fun a b : RagDocument × ℚ => b.2 ≤ a.2) scored).map (·.1), ev) := by
  unfold rerank_documents
  cases docs with
  | nil =>
    rw [score_docs_nil] at h
    simp at h
    simp [h.1, h.2, List.insertionSort]
  | cons d ds =>
    simp only [List.isEmpty_cons, Bool.false_eq_true, if_false, h]

lemma rerank_documents_err (env : Env) (q : String) (docs : List RagDocument)
    (e : Unit) (ev : List RagEvent)
    (h : score_docs env q docs = (.error e, ev)) :
    rerank_documents env docs q = (docs, ev) := by
  unfold rerank_documents
  cases docs with
  | nil => rw [score_docs_nil] at h; simp at h
  | cons d ds => simp only [List.isEmpty_cons, Bool.false_eq_true, if_false, h]

lemma extract_score_mem (resp : String) :
    0 ≤ extract_score resp ∧ extract_score resp ≤ 1 := by
  unfold extract_score
  cases hw : (pySplitWs resp.toList).filter isDigitsWord with
  | nil => simp only [hw]; norm_num
  | cons w ws =>
    simp only [hw]
    cases hp : pyFloatStr w with
    | none => simp only [hp]; norm_num
    | some s =>
      simp only [hp]
      unfold pymin pymax
      split_ifs <;> constructor <;> linarith

lemma extract_score_no_token (resp : String)
    (h : (pySplitWs resp.toList).filter isDigitsWord = []) : extract_score resp = 0.5 := by
  unfold extract_score
  simp only [h]

lemma extract_score_bad_token (resp : String) (w : List Char) (ws : List (List Char))
    (h : (pySplitWs resp.toList).filter isDigitsWord = w :: ws)
    (hp : pyFloatStr w = none) : extract_score resp = 0.5 := by
  unfold extract_score
  simp only [h, hp]

lemma check_availability_jstr_ok (sid : String) (s : String) :
    ∃ a, check_availability sid (JVal.jstr s) = .ok a := by
  unfold check_availability
  cases INVENTORY.lookup sid with
  | none => exact ⟨_, rfl⟩
  | some inv =>
    by_cases h : inv.isEmpty
    · simp only [h, if_true]
      exact ⟨_, rfl⟩
    · simp only [h, Bool.false_eq_true, if_false]
      cases inv.lookup (String.mk ((pyLower s.toList).map (fun c => if c = ' ' then '_' else c))) with
      | none => exact ⟨_, rfl⟩
      | some item => exact ⟨_, rfl⟩

lemma check_loop_jstr_ok (s : String) :
    ∀ entries : List StoreEntry, ∃ inv, (check_loop (JVal.jstr s) entries).1 = .ok inv := by
  intro entries
  induction entries with
  | nil => exact ⟨[], rfl⟩
  | cons st rest ih =>
    obtain ⟨a, ha⟩ := check_availability_jstr_ok st.store_id s
    obtain ⟨inv, hinv⟩ := ih
    unfold check_loop
    rw [ha]
    exact ⟨a :: inv, by simp only [hinv, Except.map]⟩

lemma get_order_status_jstr_ok (s : String) :
    ∃ st, get_order_status (JVal.jstr s) = .ok st := by
  unfold get_order_status
  cases h : List.lookup s ORDERS with
  | none => exact ⟨.notFound (.jstr s) "Order not found", by simp only [h]⟩
  | some o =>
    exact ⟨.found s o.status o.items o.total o.store o.created_at
      (match o.pickup_time with | some p => some p | none => o.estimated_ready) o.notes,
      by simp only [h]⟩

lemma loyalty_step_mono (x : Offer) (acc : List Offer) (o : Offer) (h : x ∈ acc) :
    x ∈ loyalty_step acc o := by
  unfold loyalty_step
  split_ifs <;> simp [h]

lemma loyal_in_foldl :
    ∀ (l : List Offer) (acc : List Offer), loyaltyOffer ∈ acc ∨ loyaltyOffer ∈ l →
      loyaltyOffer ∈ l.foldl loyalty_step acc := by
  intro l
  induction l with
  | nil =>
    intro acc h
    rcases h with h | h
    · exact h
    · simp at h
  | cons o t ih =>
    intro acc h
    rcases h with h | h
    · exact ih _ (Or.inl (loyalty_step_mono _ _ _ h))
    · rcases List.mem_cons.mp h with rfl | h
      · refine ih _ (Or.inl ?_)
        unfold loyalty_step
        by_cases hm : loyaltyOffer ∈ acc
        · split_ifs <;> simp [hm]
        · rw [if_pos ⟨by decide, hm⟩]
          simp
      · exact ih _ (Or.inr h)

/-! ## Claim theorems -/

/-- C1: the confidence router of `process_request` routes to RAG mode
exactly when the detected confidence is strictly below
`CONFIDENCE_THRESHOLD` and to tooling mode when it is at least the
threshold; `routeMode` is a pure function of those two quantities only,
and the `mode` field of every response equals the router's decision (the
single comparison happens once, before any agent lookup, which only the
tooling branch performs). -/
theorem spec_C1_confidence_router :
    (∀ c t : ℚ, (c < t → routeMode c t = .rag) ∧ (t ≤ c → routeMode c t = .tooling)) ∧
    (∀ env req, (process_request env req).mode =
      modeString (routeMode (detect_intent env (mask_text req.message).1).confidence
        CONFIDENCE_THRESHOLD)) := by
  constructor
  · intro c t
    refine ⟨fun h => by simp [routeMode, h], fun h => by simp [routeMode, not_lt.mpr h]⟩
  · intro env req
    rw [process_request_cases]
    by_cases h : (detect_intent env (mask_text req.message).1).confidence < CONFIDENCE_THRESHOLD
    · simp [h, routeMode, modeString, process_rag_mode_mode]
    · cases hr : route_to_agents (detect_intent env (mask_text req.message).1) req
        (mask_text req.message).1 with
      | ok ra => simp [h, hr, routeMode, modeString, generate_response_mode]
      | error e => simp [h, hr, routeMode, modeString, create_error_response]

/-- Witness for C1 at concrete runs: confidence 0 (failed detection)
routes to and produces a `"rag"`-mode response; confidence 0.9 produces a
`"tooling"`-mode response. -/
theorem spec_C1_confidence_router_witness :
    ((0 : ℚ) < CONFIDENCE_THRESHOLD ∧ routeMode 0 CONFIDENCE_THRESHOLD = .rag) ∧
    (CONFIDENCE_THRESHOLD ≤ 0.9 ∧ routeMode 0.9 CONFIDENCE_THRESHOLD = .tooling) ∧
    (process_request envFail reqDT).mode = "rag" ∧
    (process_request envHigh reqDT).mode = "tooling" := by
  have h0 : (0 : ℚ) < CONFIDENCE_THRESHOLD := by norm_num [CONFIDENCE_THRESHOLD]
  have h9 : CONFIDENCE_THRESHOLD ≤ 0.9 := by norm_num [CONFIDENCE_THRESHOLD]
  refine ⟨⟨h0, (spec_C1_confidence_router.1 0 CONFIDENCE_THRESHOLD).1 h0⟩,
          ⟨h9, (spec_C1_confidence_router.1 0.9 CONFIDENCE_THRESHOLD).2 h9⟩, ?_, ?_⟩
  · rw [spec_C1_confidence_router.2 envFail reqDT]
    rw [show detect_intent envFail (mask_text reqDT.message).1 =
      ⟨"other", 0.0, [], some "neutral"⟩ from rfl]
    rw [show routeMode (⟨"other", 0.0, [], some "neutral"⟩ : IntentResult).confidence
        CONFIDENCE_THRESHOLD = Mode.rag from by
      unfold routeMode; rw [if_pos (by norm_num [CONFIDENCE_THRESHOLD])]]
    rfl
  · rw [spec_C1_confidence_router.2 envHigh reqDT]
    rw [show detect_intent envHigh (mask_text reqDT.message).1 =
      ⟨"other", 0.9, [], none⟩ from rfl]
    rw [show routeMode (⟨"other", 0.9, [], none⟩ : IntentResult).confidence
        CONFIDENCE_THRESHOLD = Mode.tooling from by
      unfold routeMode; rw [if_neg (by norm_num [CONFIDENCE_THRESHOLD])]]
    rfl

/-- C2: `process_request` returns exactly one `ChatResponse` for every
request (it is a total function into `ChatResponse`); a normally produced
response is returned as-is, and an exception escaping the orchestration is
converted by the top-level handler into the fixed generic-error response,
which carries `confidence = 0.0` and `requires_escalation = true`. -/
theorem spec_C2_top_level_handler (env : Env) (req : ChatRequest) :
    (∀ r, process_request_inner env req = .ok r → process_request env req = r) ∧
    (∀ e, process_request_inner env req = .error e →
      process_request env req = create_error_response req) ∧
    (create_error_response req).confidence = 0 ∧
    (create_error_response req).requires_escalation = true := by
  refine ⟨fun r h => ?_, fun e h => ?_, by norm_num [create_error_response], rfl⟩
  · unfold process_request; rw [h]
  · unfold process_request; rw [h]

/-- Witness for C2: a concrete request on which the dispatcher raises (a
numeric `product` entity), so the top-level handler returns the fixed
generic-error response. -/
theorem spec_C2_top_level_handler_witness :
    process_request_inner envSC reqDT = .error () ∧
    process_request envSC reqDT = create_error_response reqDT ∧
    (create_error_response reqDT).confidence = 0 ∧
    (create_error_response reqDT).requires_escalation = true :=
  ⟨inner_err, (spec_C2_top_level_handler envSC reqDT).2.1 () inner_err,
   (spec_C2_top_level_handler envSC reqDT).2.2.1, (spec_C2_top_level_handler envSC reqDT).2.2.2⟩

/-- C3: whenever retrieval returns no documents — in particular whenever
the corpus is empty, which is exactly when the vector store is absent —
`process_query` short-circuits with the fixed "couldn't find relevant
information" result of confidence 0.3 ≤ 0.3 and
`requires_escalation = true`, and its trace contains only the rewrite and
retrieve stages (no rerank, compress, generate or validate stage runs). -/
theorem spec_C3_empty_retrieval (env : Env) (q : String) (loc : Option (ℝ × ℝ)) :
    (env.ragDocs = [] → pq_documents env q = []) ∧
    (pq_documents env q = [] →
      (process_query env q loc).1 =
        ⟨"I couldn\x27t find relevant information to answer that query.", 0.3, 0, none, true, none⟩ ∧
      (process_query env q loc).1.confidence ≤ 0.3 ∧
      (process_query env q loc).1.requires_escalation = true ∧
      ∀ e ∈ (process_query env q loc).2,
        e.stage = RagStage.rewrite ∨ e.stage = RagStage.retrieve) := by
  constructor
  · intro h
    unfold pq_documents retrieve_documents
    simp [h]
  · intro h
    have hE : (pq_documents env q).isEmpty := by simp [h]
    have hres := process_query_result env q loc
    rw [if_pos hE] at hres
    refine ⟨hres, by rw [hres], by rw [hres], ?_⟩
    have htr := process_query_trace env q loc
    rw [if_pos hE, rewrite_query_events, retrieve_documents_events] at htr
    intro e he
    rw [htr] at he
    simp at he
    rcases he with he | he <;> rw [he] <;> simp

/-- Witness for C3: the empty-corpus environment short-circuits with the
fixed low-confidence escalation result. -/
theorem spec_C3_empty_retrieval_witness :
    envFail.ragDocs = [] ∧
    pq_documents envFail "q" = [] ∧
    (process_query envFail "q" none).1.confidence ≤ 0.3 ∧
    (process_query envFail "q" none).1.requires_escalation = true ∧
    (process_query envFail "q" none).1.answer =
      "I couldn\x27t find relevant information to answer that query." := by
  have h0 : pq_documents envFail "q" = [] := (spec_C3_empty_retrieval envFail "q" none).1 rfl
  have h := (spec_C3_empty_retrieval envFail "q" none).2 h0
  exact ⟨rfl, h0, h.2.1, h.2.2.1, by rw [h.1]⟩

/-- C4: the hallucination check with an empty source-document list always
reports a hallucination; every `process_query` result with zero source
documents has `requires_escalation = true`; and a flagged answer is
replaced by the escalation message with confidence forced down to 0.4 and
`requires_escalation = true`. -/
theorem spec_C4_hallucination_veto (env : Env) (q ans : String) (loc : Option (ℝ × ℝ)) :
    (check_hallucination env ans []).1 = true ∧
    ((process_query env q loc).1.source_count = 0 →
      (process_query env q loc).1.requires_escalation = true) ∧
    (pq_documents env q ≠ [] → pq_flagged env q = true →
      (process_query env q loc).1.answer =
        "I\x27m not confident about that answer. Let me connect you with a specialist who can help better." ∧
      (process_query env q loc).1.confidence = 0.4 ∧
      (process_query env q loc).1.requires_escalation = true) := by
  refine ⟨rfl, ?_, ?_⟩
  · intro h
    rw [process_query_result] at h ⊢
    by_cases hE : (pq_documents env q).isEmpty
    · rw [if_pos hE]
    · rw [if_neg hE] at h ⊢
      by_cases hF : pq_flagged env q
      · rw [if_pos hF]
      · rw [if_neg hF] at h ⊢
        exfalso
        have hlen : (pq_documents2 env q).length = 0 := h
        have hnil : pq_documents2 env q = [] := List.length_eq_zero.mp hlen
        have : pq_flagged env q = true := by
          unfold pq_flagged
          rw [hnil]
          rfl
        exact hF this
  · intro hne hF
    have hE : ¬ (pq_documents env q).isEmpty := by simp [hne]
    rw [process_query_result, if_neg hE, if_pos hF]
    exact ⟨rfl, rfl, rfl⟩

/-- Witness for C4: with every generative call answering `"no"`, the
check flags the answer and the pipeline escalates at confidence 0.4. -/
theorem spec_C4_hallucination_veto_witness :
    pq_documents envNo "q" ≠ [] ∧
    pq_flagged envNo "q" = true ∧
    (check_hallucination envNo "answer" []).1 = true ∧
    (process_query envNo "q" none).1.answer =
      "I\x27m not confident about that answer. Let me connect you with a specialist who can help better." ∧
    (process_query envNo "q" none).1.confidence = 0.4 ∧
    (process_query envNo "q" none).1.requires_escalation = true := by
  have hne : pq_documents envNo "q" ≠ [] := by
    rw [show pq_documents envNo "q" = [d0] from rfl]
    simp
  have hF : pq_flagged envNo "q" = true := rfl
  have h := (spec_C4_hallucination_veto envNo "q" "answer" none).2.2 hne hF
  exact ⟨hne, hF, (spec_C4_hallucination_veto envNo "q" "answer" none).1, h.1, h.2.1, h.2.2⟩

/-- C5 (amended): `find_nearby_stores` is a deterministic pure function
(calling it again on the same inputs yields the same result); its output
is sorted ascending by the `distance_km` field; every returned entry is
the record built for one of the fixed stores, whose `distance_km` is the
planar Euclidean distance in degrees scaled by 111 km/degree and rounded
to two decimals; and a store at exactly distance 0 from the caller is
included for every nonnegative radius.  (The original claim's "regardless
of the radius value" fails for negative radii — see the counterexample.) -/
theorem spec_C5_find_nearby (loc : LocationData) (r : ℝ) :
    find_nearby_stores loc r = find_nearby_stores loc r ∧
    List.Sorted (fun a b : StoreEntry => a.distance_km ≤ b.distance_km)
      (find_nearby_stores loc r) ∧
    (∀ e ∈ find_nearby_stores loc r, ∃ s ∈ STORES, e = mkStoreEntry s loc ∧
      e.distance_km = pyRound2 (storeDistance s loc)) ∧
    (∀ s ∈ STORES, 0 ≤ r → s.latitude = loc.latitude → s.longitude = loc.longitude →
      mkStoreEntry s loc ∈ find_nearby_stores loc r) := by
  haveI : IsTotal StoreEntry (fun a b => a.distance_km ≤ b.distance_km) :=
    ⟨fun a b => le_total a.distance_km b.distance_km⟩
  haveI : IsTrans StoreEntry (fun a b => a.distance_km ≤ b.distance_km) :=
    ⟨fun a b c => le_trans⟩
  refine ⟨rfl, ?_, ?_, ?_⟩
  · exact List.sorted_insertionSort _ _
  · intro e he
    unfold find_nearby_stores at he
    rw [List.mem_insertionSort, List.mem_filterMap] at he
    obtain ⟨s, hs, hfs⟩ := he
    by_cases hc : storeDistance s loc ≤ r
    · rw [if_pos hc] at hfs
      obtain rfl := Option.some_inj.mp hfs
      exact ⟨s, hs, rfl, rfl⟩
    · rw [if_neg hc] at hfs
      exact absurd hfs (by simp)
  · intro s hs hr h1 h2
    unfold find_nearby_stores
    rw [List.mem_insertionSort, List.mem_filterMap]
    refine ⟨s, hs, ?_⟩
    rw [if_pos (by rw [storeDistance_self s loc h1 h2]; exact hr)]

/-- Counterexample for C5 as stated: the downtown store lies at distance
exactly 0 from a caller at its own coordinates, yet with radius −1 it is
not included — inclusion does not hold "regardless of the radius value". -/
theorem spec_C5_find_nearby_cex :
    downtownStore ∈ STORES ∧
    downtownStore.latitude = dtLoc.latitude ∧
    downtownStore.longitude = dtLoc.longitude ∧
    storeDistance downtownStore dtLoc = 0 ∧
    mkStoreEntry downtownStore dtLoc ∉ find_nearby_stores dtLoc (-1 : ℝ) := by
  refine ⟨by simp [STORES], rfl, rfl, dt_dist_zero, ?_⟩
  rw [find_dt_neg]
  simp

/-- Witness for the amended C5 at the default 5 km radius: the
zero-distance downtown store is included and the output is sorted. -/
theorem spec_C5_find_nearby_witness :
    (0 : ℝ) ≤ 5.0 ∧
    mkStoreEntry downtownStore dtLoc ∈ find_nearby_stores dtLoc 5.0 ∧
    List.Sorted (fun a b : StoreEntry => a.distance_km ≤ b.distance_km)
      (find_nearby_stores dtLoc 5.0) :=
  ⟨by norm_num,
   (spec_C5_find_nearby dtLoc 5.0).2.2.2 downtownStore (by simp [STORES]) (by norm_num) rfl rfl,
   (spec_C5_find_nearby dtLoc 5.0).2.1⟩

/-- C6: inside `process_query` every rerank scoring call is built from
the original (not rewritten) query against one of the retrieved
documents, and a successful scoring pass rates every document; every
extracted score lies in `[0, 1]`, defaulting to 0.5 when no digit token
exists or the token fails to parse; on success the documents come back
stable-sorted descending by score (a permutation of the scored list, and
any equal-score pair keeps its relative order: it stays a sublist); and
when the scoring calls themselves error, the documents are returned in
the original retrieval order instead of raising. -/
theorem spec_C6_rerank (env : Env) (q resp : String) (docs : List RagDocument)
    (loc : Option (ℝ × ℝ)) :
    (∀ e ∈ (process_query env q loc).2, e.stage = RagStage.rerank →
      ∃ d ∈ pq_documents env q, e.payload = score_prompt q d) ∧
    (∀ scored ev, score_docs env q docs = (.ok scored, ev) →
      ev.map (·.payload) = docs.map (score_prompt q)) ∧
    (0 ≤ extract_score resp ∧ extract_score resp ≤ 1) ∧
    ((pySplitWs resp.toList).filter isDigitsWord = [] → extract_score resp = 0.5) ∧
    (∀ w ws, (pySplitWs resp.toList).filter isDigitsWord = w :: ws → pyFloatStr w = none →
      extract_score resp = 0.5) ∧
    (∀ scored ev, score_docs env q docs = (.ok scored, ev) →
      rerank_documents env docs q =
        ((List.insertionSort (fun a b : RagDocument × ℚ => b.2 ≤ a.2) scored).map (·.1), ev) ∧
      List.Sorted (fun a b : RagDocument × ℚ => b.2 ≤ a.2)
        (List.insertionSort (fun a b : RagDocument × ℚ => b.2 ≤ a.2) scored) ∧
      (List.insertionSort (fun a b : RagDocument × ℚ => b.2 ≤ a.2) scored).Perm scored) ∧
    (∀ e ev, score_docs env q docs = (.error e, ev) →
      rerank_documents env docs q = (docs, ev)) ∧
    (∀ (scored : List (RagDocument × ℚ)) (a b : RagDocument × ℚ), a.2 = b.2 →
      [a, b].Sublist scored →
      [a, b].Sublist
        (List.insertionSort (fun a b : RagDocument × ℚ => b.2 ≤ a.2) scored)) := by
  refine ⟨?_, fun scored ev h => score_docs_ok_payloads env q docs scored ev h,
    extract_score_mem resp, extract_score_no_token resp,
    fun w ws h hp => extract_score_bad_token resp w ws h hp,
    fun scored ev h => ?_, fun e ev h => rerank_documents_err env q docs e ev h,
    fun scored a b hab hs =>
      List.pair_sublist_insertionSort (le_of_eq hab.symm) hs⟩
  · intro e he hs
    have htr := process_query_trace env q loc
    rw [htr] at he
    by_cases hE : (pq_documents env q).isEmpty
    · rw [if_pos hE, rewrite_query_events, retrieve_documents_events] at he
      simp at he
      rcases he with he | he <;> rw [he] at hs <;> simp at hs
    · rw [if_neg hE, rewrite_query_events, retrieve_documents_events,
        generate_answer_events] at he
      simp only [List.mem_append, List.mem_singleton] at he
      rcases he with ((((he | he) | he) | he) | he) | he
      · rw [he] at hs; simp at hs
      · rw [he] at hs; simp at hs
      · exact (rerank_documents_events env q (pq_documents env q) e he).2
      · rw [he] at hs; simp at hs
      · rw [he] at hs; simp at hs
      · have := check_hallucination_events env (pq_answer env q) (pq_documents2 env q) e he
        rw [this] at hs; simp at hs
  · haveI : IsTotal (RagDocument × ℚ) (fun a b => b.2 ≤ a.2) :=
      ⟨fun a b => le_total b.2 a.2⟩
    haveI : IsTrans (RagDocument × ℚ) (fun a b => b.2 ≤ a.2) :=
      ⟨fun a b c hab hbc => le_trans hbc hab⟩
    exact ⟨rerank_documents_ok env q docs scored ev h,
      List.sorted_insertionSort _ _, List.perm_insertionSort _ _⟩

set_option maxHeartbeats 2000000 in
/-- Witness for C6 at concrete runs: a successful scoring pass (constant
`"yes"` oracle) rates the single retrieved document against the original
query and returns it; `"0.9"` parses into `[0, 1]`; `"1.2.3"` fails to
parse and defaults to 0.5; a failing oracle degrades to retrieval order;
two documents tied at score 0.5 keep their original relative order. -/
theorem spec_C6_rerank_witness :
    score_docs envYes "q" [d0] =
      (.ok [(d0, 0.5)], [⟨RagStage.rerank, score_prompt "q" d0⟩]) ∧
    ([⟨RagStage.rerank, score_prompt "q" d0⟩] : List RagEvent).map (·.payload) =
      [d0].map (score_prompt "q") ∧
    rerank_documents envYes [d0] "q" = ([d0], [⟨RagStage.rerank, score_prompt "q" d0⟩]) ∧
    (0 ≤ extract_score "0.9" ∧ extract_score "0.9" ≤ 1) ∧
    extract_score "1.2.3" = 0.5 ∧
    score_docs envFailDocs "q" [d0] =
      (.error (), [⟨RagStage.rerank, score_prompt "q" d0⟩]) ∧
    rerank_documents envFailDocs [d0] "q" =
      ([d0], [⟨RagStage.rerank, score_prompt "q" d0⟩]) ∧
    (⟨RagStage.rerank, score_prompt "q" d0⟩ : RagEvent) ∈ (process_query envYes "q" none).2 ∧
    (∃ d ∈ pq_documents envYes "q",
      (⟨RagStage.rerank, score_prompt "q" d0⟩ : RagEvent).payload = score_prompt "q" d) ∧
    List.Sublist [(d0, (0.5 : ℚ)), (d1, 0.5)]
      (List.insertionSort (fun a b : RagDocument × ℚ => b.2 ≤ a.2)
        [(d0, 0.5), (d1, 0.5)]) := by
  have hok : score_docs envYes "q" [d0] =
      (.ok [(d0, 0.5)], [⟨RagStage.rerank, score_prompt "q" d0⟩]) := rfl
  have herr : score_docs envFailDocs "q" [d0] =
      (.error (), [⟨RagStage.rerank, score_prompt "q" d0⟩]) := rfl
  have hmem : (⟨RagStage.rerank, score_prompt "q" d0⟩ : RagEvent) ∈
      (process_query envYes "q" none).2 := by
    rw [show (process_query envYes "q" none).2 =
      [⟨RagStage.rewrite, rewrite_prompt "q"⟩, ⟨RagStage.retrieve, "yes"⟩,
       ⟨RagStage.rerank, score_prompt "q" d0⟩, ⟨RagStage.compress, compress_context [d0]⟩,
       ⟨RagStage.generate, generate_prompt "q" (compress_context [d0])⟩,
       ⟨RagStage.validate, check_prompt "yes" (([d0].flatMap doc_facts).take 5)⟩] from rfl]
    exact List.mem_cons_of_mem _ (List.mem_cons_of_mem _ (List.mem_cons_self _ _))
  have hre := (spec_C6_rerank envYes "q" "0.9" [d0] none).2.2.2.2.2.1 [(d0, 0.5)]
    [⟨RagStage.rerank, score_prompt "q" d0⟩] hok
  refine ⟨hok,
    (spec_C6_rerank envYes "q" "0.9" [d0] none).2.1 [(d0, 0.5)]
      [⟨RagStage.rerank, score_prompt "q" d0⟩] hok,
    ?_,
    (spec_C6_rerank envYes "q" "0.9" [d0] none).2.2.1,
    (spec_C6_rerank envYes "q" "1.2.3" [d0] none).2.2.2.2.1 "1.2.3".toList [] rfl rfl,
    herr,
    (spec_C6_rerank envFailDocs "q" "0.9" [d0] none).2.2.2.2.2.2.1 () _ herr,
    hmem,
    (spec_C6_rerank envYes "q" "0.9" [d0] none).1 _ hmem rfl,
    (spec_C6_rerank envYes "q" "0.9" [d0] none).2.2.2.2.2.2.2
      [(d0, 0.5), (d1, 0.5)] (d0, 0.5) (d1, 0.5) rfl (List.Sublist.refl _)⟩
  · rw [hre.1]
    simp [List.insertionSort, List.orderedInsert]

/-- C7: when the hallucination check does not flag the answer, the
pipeline's confidence equals `min(0.95, 0.6 + 0.1 × retained documents)`
— a monotonically increasing function of the document count capped at
0.95 — and `requires_escalation = false`. -/
theorem spec_C7_confidence_formula (env : Env) (q : String) (loc : Option (ℝ × ℝ)) :
    (∀ n m : ℕ, n ≤ m → rag_confidence n ≤ rag_confidence m) ∧
    (∀ n : ℕ, rag_confidence n ≤ 0.95 ∧
      rag_confidence n = pymin 0.95 (0.6 + (n : ℚ) * 0.1)) ∧
    (pq_documents env q ≠ [] → pq_flagged env q = false →
      (process_query env q loc).1.confidence = rag_confidence (pq_documents2 env q).length ∧
      (process_query env q loc).1.requires_escalation = false) := by
  refine ⟨?_, ?_, ?_⟩
  · intro n m h
    have hc : (n : ℚ) ≤ (m : ℚ) := by exact_mod_cast h
    unfold rag_confidence pymin
    split_ifs <;> linarith
  · intro n
    constructor
    · unfold rag_confidence pymin
      split_ifs with h
      · linarith
      · linarith [h]
    · rfl
  · intro hne hF
    have hE : ¬ (pq_documents env q).isEmpty := by simp [hne]
    rw [process_query_result, if_neg hE, if_neg (by simp [hF])]
    exact ⟨rfl, rfl⟩

/-- Witness for C7: a one-document un-flagged run yields confidence
`min(0.95, 0.6 + 1 × 0.1) = 0.7` without escalation. -/
theorem spec_C7_confidence_formula_witness :
    pq_documents envYes "q" ≠ [] ∧
    pq_flagged envYes "q" = false ∧
    (process_query envYes "q" none).1.confidence = rag_confidence 1 ∧
    rag_confidence 1 = 0.7 ∧
    (process_query envYes "q" none).1.requires_escalation = false ∧
    rag_confidence 3 ≤ rag_confidence 4 ∧
    rag_confidence 100 ≤ 0.95 := by
  have hne : pq_documents envYes "q" ≠ [] := by
    rw [show pq_documents envYes "q" = [d0] from rfl]
    simp
  have hF : pq_flagged envYes "q" = false := rfl
  have h := (spec_C7_confidence_formula envYes "q" none).2.2 hne hF
  refine ⟨hne, hF, ?_, ?_, h.2, ?_, ?_⟩
  · rw [h.1, show pq_documents2 envYes "q" = [d0] from rfl]
    rfl
  · norm_num [rag_confidence, pymin]
  · exact (spec_C7_confidence_formula envYes "q" none).1 3 4 (by norm_num)
  · exact ((spec_C7_confidence_formula envYes "q" none).2.1 100).1

/-- C8 (amended): the tooling dispatcher returns normally for every
intent — including all six categories, with any request and entity map —
provided each present `product`/`order_id` entity value is a string; a
missing product defaults to `"item"`; and for `order_status` with no
`order_id` entity the dispatcher makes no agent call and the returned bag
carries no `order` key.  (The original unconditional "never raises" fails
for non-string entity values — see the counterexample.) -/
theorem spec_C8_dispatcher (ir : IntentResult) (req : ChatRequest) (msg : String) :
    ((∀ v, ir.entities.lookup "product" = some v → ∃ s, v = JVal.jstr s) →
     (∀ v, ir.entities.lookup "order_id" = some v → ∃ s, v = JVal.jstr s) →
     ∃ bag calls, route_to_agents ir req msg = .ok (bag, calls)) ∧
    (ir.intent = "order_status" → ir.entities.lookup "order_id" = none →
      route_to_agents ir req msg =
        .ok (⟨ir.intent, ir.emotion, ir.entities, none, none, none, none, none⟩, [])) ∧
    (ir.intent = "stock_check" → ir.entities.lookup "product" = none →
      ∃ inv calls,
        check_loop (JVal.jstr "item") (find_nearby_stores req.location 5.0) =
          (.ok inv, calls) ∧
        route_to_agents ir req msg =
          .ok (⟨ir.intent, ir.emotion, ir.entities, none, none, some inv, none, none⟩,
            AgentCall.findNearby req.location.latitude req.location.longitude 5.0 :: calls)) := by
  refine ⟨fun hp ho => ?_, fun hi hn => ?_, fun hi hn => ?_⟩
  · unfold route_to_agents
    by_cases h1 : ir.intent = "store_hours"
    · rw [if_pos h1]
      cases hnear : find_nearby_stores req.location 5.0 with
      | nil => simp only [hnear]; exact ⟨_, _, rfl⟩
      | cons st rest => simp only [hnear]; exact ⟨_, _, rfl⟩
    · rw [if_neg h1]
      by_cases h2 : ir.intent = "stock_check"
      · rw [if_pos h2]
        cases hlk : ir.entities.lookup "product" with
        | none =>
          obtain ⟨inv, hinv⟩ := check_loop_jstr_ok "item" (find_nearby_stores req.location 5.0)
          simp only [hlk, Option.getD, hinv]
          exact ⟨_, _, rfl⟩
        | some v =>
          obtain ⟨s, rfl⟩ := hp v hlk
          obtain ⟨inv, hinv⟩ := check_loop_jstr_ok s (find_nearby_stores req.location 5.0)
          simp only [hlk, Option.getD, hinv]
          exact ⟨_, _, rfl⟩
      · rw [if_neg h2]
        by_cases h3 : ir.intent = "order_status"
        · rw [if_pos h3]
          cases hlk : ir.entities.lookup "order_id" with
          | none => simp only [hlk]; exact ⟨_, _, rfl⟩
          | some v =>
            obtain ⟨s, rfl⟩ := ho v hlk
            by_cases ht : jvalTruthy (JVal.jstr s)
            · obtain ⟨st, hst⟩ := get_order_status_jstr_ok s
              simp only [hlk, ht, if_true, hst]
              exact ⟨_, _, rfl⟩
            · simp only [hlk, ht, Bool.false_eq_true, if_false]
              exact ⟨_, _, rfl⟩
        · rw [if_neg h3]
          by_cases h4 : ir.intent = "location_recommendation"
          · rw [if_pos h4]; exact ⟨_, _, rfl⟩
          · rw [if_neg h4]
            by_cases h5 : ir.intent = "product_recommendation"
            · rw [if_pos h5]; exact ⟨_, _, rfl⟩
            · rw [if_neg h5]; exact ⟨_, _, rfl⟩
  · unfold route_to_agents
    rw [if_neg (by rw [hi]; decide), if_neg (by rw [hi]; decide), if_pos hi]
    simp only [hn]
  · unfold route_to_agents
    rw [if_neg (by rw [hi]; decide), if_pos hi]
    obtain ⟨inv, hinv⟩ := check_loop_jstr_ok "item" (find_nearby_stores req.location 5.0)
    refine ⟨inv, (check_loop (JVal.jstr "item") (find_nearby_stores req.location 5.0)).2, ?_, ?_⟩
    · rw [show check_loop (JVal.jstr "item") (find_nearby_stores req.location 5.0) =
        ((check_loop (JVal.jstr "item") (find_nearby_stores req.location 5.0)).1,
         (check_loop (JVal.jstr "item") (find_nearby_stores req.location 5.0)).2) from rfl,
        hinv]
    · simp only [hn, Option.getD, hinv, List.singleton_append]

/-- Counterexample for C8 as stated: the dispatcher raises (Python
`AttributeError` from `product.lower()`) on the `stock_check` intent when
the `product` entity is the number 5 and a store is in range — it does
not hold that it never raises. -/
theorem spec_C8_dispatcher_cex :
    route_to_agents ⟨"stock_check", 0.9, [("product", JVal.jnum 5)], none⟩ reqDT "msg" =
      .error () :=
  route_err "msg"

/-- Witness for the amended C8: `order_status` without an `order_id`
entity makes no agent call and yields a bag with no `order` key, and
`stock_check` without a `product` entity checks availability of
`"item"`. -/
theorem spec_C8_dispatcher_witness :
    route_to_agents ⟨"order_status", 0.9, [], none⟩ reqDT "m" =
      .ok (⟨"order_status", none, [], none, none, none, none, none⟩, []) ∧
    (∃ bag calls, route_to_agents ⟨"order_status", 0.9, [], none⟩ reqDT "m" =
      .ok (bag, calls)) ∧
    (∃ inv calls,
      check_loop (JVal.jstr "item") (find_nearby_stores reqDT.location 5.0) = (.ok inv, calls) ∧
      route_to_agents ⟨"stock_check", 0.9, [], none⟩ reqDT "m" =
        .ok (⟨"stock_check", none, [], none, none, some inv, none, none⟩,
          AgentCall.findNearby reqDT.location.latitude reqDT.location.longitude 5.0 :: calls)) :=
  ⟨(spec_C8_dispatcher ⟨"order_status", 0.9, [], none⟩ reqDT "m").2.1 rfl rfl,
   (spec_C8_dispatcher ⟨"order_status", 0.9, [], none⟩ reqDT "m").1
     (fun v h => absurd h (by simp)) (fun v h => absurd h (by simp)),
   (spec_C8_dispatcher ⟨"stock_check", 0.9, [], none⟩ reqDT "m").2.2 rfl rfl⟩

/-- Counterexample for C9 as stated: both conjuncts fail.  Masking is not
idempotent — masking the masked output of `"abc@x.com"` changes it again
(`"a*c@x.com"` becomes `"a**@x.com"`, because the surviving characters
still match the email pattern).  And the masked output can contain a
detected original sensitive substring: on `"com@x.com@x.com"` `findall`
detects exactly the email `"com@x.com"` (the second occurrence, starting
at index 6, overlaps the first and is skipped by the non-overlapping
scan), `str.replace` likewise replaces only the first, non-overlapping
occurrence, and the detected original `"com@x.com"` still occurs — at
index 6 — in the masked output `"c*m@x.com@x.com"`. -/
theorem spec_C9_pii_cex :
    (mask_text (mask_text "abc@x.com").1).1 ≠ (mask_text "abc@x.com").1 ∧
    (mask_text "com@x.com@x.com").2.emails.map (fun r => r.original) =
      ["com@x.com".toList] ∧
    (mask_text "com@x.com@x.com").1 = "c*m@x.com@x.com" ∧
    hasSub "com@x.com".toList ((mask_text "com@x.com@x.com").1).toList = true :=
  ⟨by decide, by decide, by decide, by decide⟩

/-- C9 (amended): `mask_text` changes nothing on any text in which no PII
pattern matches — so re-masking is the identity exactly on such masked
outputs, but not in general: `"abc@x.com"` masks to `"a*c@x.com"`, which
masks again to the fixed point `"a**@x.com"`; on this input the original
sensitive substring appears in neither the first nor the second masked
output (the general no-reintroduction conjunct is refuted separately by
the self-overlapping match of the counterexample). -/
theorem spec_C9_pii_amended :
    (∀ t : String, reFindall matchEmailAt t.toList = [] →
      reFindall matchPhoneAt t.toList = [] → reFindall matchSsnAt t.toList = [] →
      reFindall matchCcAt t.toList = [] → (mask_text t).1 = t) ∧
    (mask_text "abc@x.com").1 = "a*c@x.com" ∧
    (mask_text "a*c@x.com").1 = "a**@x.com" ∧
    (mask_text "a**@x.com").1 = "a**@x.com" ∧
    hasSub "abc@x.com".toList ((mask_text "abc@x.com").1).toList = false ∧
    hasSub "abc@x.com".toList ((mask_text (mask_text "abc@x.com").1).1).toList = false := by
  refine ⟨?_, by decide, by decide, by decide, by decide, by decide⟩
  intro t h1 h2 h3 h4
  unfold mask_text mask_chars
  simp only [h1, h2, h3, h4, List.foldl_nil]
  rfl

/-- Witness for the amended C9: no pattern matches `"hello world"`, so
masking it changes nothing. -/
theorem spec_C9_pii_amended_witness :
    reFindall matchEmailAt "hello world".toList = [] ∧
    reFindall matchPhoneAt "hello world".toList = [] ∧
    reFindall matchSsnAt "hello world".toList = [] ∧
    reFindall matchCcAt "hello world".toList = [] ∧
    (mask_text "hello world").1 = "hello world" :=
  ⟨by decide, by decide, by decide, by decide,
   spec_C9_pii_amended.1 "hello world" (by decide) (by decide) (by decide) (by decide)⟩

/-- C10: for every customer, weather context (including none) and
purchase history, `get_personalized_offers` returns a non-empty list that
contains the `LOYALTY_REWARD` offer, and the popular-offers fallback
branch is unreachable (the returned list is always the pre-fallback
recommendation list, which is never empty). -/
theorem spec_C10_loyalty_offers (customer_id : String) (weather_context : Option String)
    (recent_purchases : Option (List String)) :
    loyaltyOffer ∈ get_personalized_offers customer_id weather_context recent_purchases ∧
    get_personalized_offers customer_id weather_context recent_purchases ≠ [] ∧
    recommended_before_fallback weather_context ≠ [] ∧
    get_personalized_offers customer_id weather_context recent_purchases =
      recommended_before_fallback weather_context := by
  have hin : loyaltyOffer ∈ recommended_before_fallback weather_context := by
    unfold recommended_before_fallback
    exact loyal_in_foldl OFFERS _ (Or.inr (by simp [OFFERS]))
  have hne : recommended_before_fallback weather_context ≠ [] := by
    intro h; rw [h] at hin; simp at hin
  have heq : get_personalized_offers customer_id weather_context recent_purchases =
      recommended_before_fallback weather_context := by
    unfold get_personalized_offers
    rw [if_neg (by simp [hne])]
  exact ⟨heq ▸ hin, by rw [heq]; exact hne, hne, heq⟩
